import Mathlib

/-!
Verification development for the Asaas billing integration service.

The definitions below are a shallow embedding of the Go sources:
the service orchestration (`Service.RegisterCustomer`, `Service.CreatePayment`,
`Service.CreateSubscription`, `Service.CreateInvoice`,
`Service.HandleWebhookNotification`, `Service.issueInvoiceForPayment`),
the PostgreSQL-backed repository (`Repo.*`, from repository.go), and the
Asaas HTTP client surface (the `AsaasClient` capability record, from client.go).

Modelling conventions:
- Go `time.Time` is reduced to a calendar date `GoDate` (the only components
  the program reads or writes); the Go zero time is `GoDate.goZero`.
- Go `float64` money amounts are modelled by `Rat`; the program only copies
  them and compares nothing, so the embedding is exact.
- Go `error` values are the inductive `GoError`; `fmt.Errorf("...: %w", err)`
  wrapping is modelled as the identity (the code only ever inspects errors
  with `errors.Is(err, sql.ErrNoRows)`, which wrapping preserves).
- The remote Asaas gateway is an oracle `AsaasClient` of response functions;
  every service run also returns the ordered list of gateway calls it issued,
  so that "no gateway mutation" is observable.
- The PostgreSQL repository is modelled at record granularity over lists:
  `INSERT` fails on a duplicate primary key, `UPDATE ... WHERE id=$1` returns
  `sql.ErrNoRows` when zero rows are affected (as repository.go does), and
  `QueryRow ... Scan` returns `sql.ErrNoRows` when no row matches.
-/

/-- Calendar date extracted from Go `time.Time`; `⟨1, 1, 1⟩` is Go's zero time. -/
structure GoDate where
  year : Nat
  month : Nat
  day : Nat
deriving DecidableEq, Repr

/-- Go's zero `time.Time` is January 1 of year 1. -/
def GoDate.goZero : GoDate := ⟨1, 1, 1⟩

/-- Gregorian leap-year rule used by Go's `time` package. -/
def isLeapYear (y : Nat) : Bool :=
  y % 4 == 0 && (y % 100 != 0 || y % 400 == 0)

/-- Number of days in a month, as Go's `time` package counts them. -/
def daysInMonth (y m : Nat) : Nat :=
  if m == 2 then (if isLeapYear y then 29 else 28)
  else if m == 4 || m == 6 || m == 9 || m == 11 then 30
  else 31

/-- Numeric value of a decimal digit character. -/
def digitVal (c : Char) : Nat := c.toNat - 48

/-- Go `time.Parse("2006-01-02", s)`: exactly four year digits, a dash, two
month digits, a dash, two day digits, nothing else; the month must lie in
1..12 and the day in 1..daysInMonth (Go rejects out-of-range components). -/
def parseGoDate (s : String) : Option GoDate :=
  match s.toList with
  | [y1, y2, y3, y4, s1, m1, m2, s2, d1, d2] =>
    if y1.isDigit && y2.isDigit && y3.isDigit && y4.isDigit &&
       s1 == '-' && m1.isDigit && m2.isDigit && s2 == '-' &&
       d1.isDigit && d2.isDigit then
      let y := ((digitVal y1 * 10 + digitVal y2) * 10 + digitVal y3) * 10 + digitVal y4
      let m := digitVal m1 * 10 + digitVal m2
      let d := digitVal d1 * 10 + digitVal d2
      if 1 ≤ m ∧ m ≤ 12 ∧ 1 ≤ d ∧ d ≤ daysInMonth y m then some ⟨y, m, d⟩
      else none
    else none
  | _ => none

/-- `parseDate` from service.go: parse errors are swallowed and yield the Go
zero time (`t, _ := time.Parse("2006-01-02", value)`). -/
def parseDate (value : String) : GoDate :=
  (parseGoDate value).getD GoDate.goZero

/-- Left-pad the decimal rendering of `n` with zeros to width `len`. -/
def zeroPad (len : Nat) (n : Nat) : String :=
  String.mk (List.replicate (len - (toString n).length) '0') ++ toString n

/-- Go `t.Format("2006-01-02")` restricted to the date components. -/
def formatGoDate (d : GoDate) : String :=
  zeroPad 4 d.year ++ "-" ++ zeroPad 2 d.month ++ "-" ++ zeroPad 2 d.day

/-- Go `error` values distinguished by the program. `noRows` is
`sql.ErrNoRows`; `dupKey` is a primary-key violation on `INSERT`; `errMsg`
covers the `fmt.Errorf` failures the service itself constructs; gateway
transport failures arrive through the oracle as any of these. -/
inductive GoError where
  | noRows : GoError
  | dupKey : GoError
  | errMsg : String → GoError
deriving DecidableEq, Repr

/-- CustomerRequest from client.go. -/
structure CustomerRequest where
  Name : String
  Email : String
  CpfCnpj : String
  Phone : String
  MobilePhone : String
  Address : String
  AddressNumber : String
  Complement : String
  Province : String
  PostalCode : String
  ExternalID : String
  NotificationDisabled : Bool
  AdditionalEmails : String
deriving DecidableEq, Repr

/-- CustomerResponse from client.go. -/
structure CustomerResponse where
  ID : String
  Name : String
  Email : String
  ExternalID : String
deriving DecidableEq, Repr

/-- PaymentCallback from client.go. -/
structure PaymentCallback where
  SuccessURL : String
  AutoRedirect : Bool
deriving DecidableEq, Repr

/-- PaymentRequest from client.go. -/
structure PaymentRequest where
  Customer : String
  BillingType : String
  Value : Rat
  DueDate : String
  Description : String
  InstallmentCount : Int
  ExternalID : String
  Callback : Option PaymentCallback
deriving DecidableEq, Repr

/-- PaymentResponse from client.go. -/
structure PaymentResponse where
  ID : String
  Customer : String
  BillingType : String
  Value : Rat
  Status : String
  Description : String
  DueDate : String
  ExternalReference : String
  Subscription : String
  InvoiceURL : String
  TransactionReceiptURL : String
deriving DecidableEq, Repr

/-- SubscriptionRequest from client.go. -/
structure SubscriptionRequest where
  Customer : String
  BillingType : String
  Value : Rat
  NextDueDate : String
  Cycle : String
  ExternalID : String
  Description : String
  EndDate : String
  MaxPayments : Int
deriving DecidableEq, Repr

/-- SubscriptionResponse from client.go. -/
structure SubscriptionResponse where
  ID : String
  Customer : String
  Status : String
  Value : Rat
  ExternalID : String
deriving DecidableEq, Repr

/-- InvoiceTaxes from client.go. -/
structure InvoiceTaxes where
  RetainISS : Bool
  Cofins : Rat
  Csll : Rat
  INSS : Rat
  IR : Rat
  PIS : Rat
  ISS : Rat
deriving DecidableEq, Repr

/-- InvoiceRequest from client.go. -/
structure InvoiceRequest where
  Payment : String
  ServiceDescription : String
  Observations : String
  ExternalID : String
  Value : Rat
  Deductions : Rat
  EffectiveDate : String
  MunicipalServiceID : String
  MunicipalServiceCode : String
  MunicipalServiceName : String
  UpdatePayment : Bool
  Taxes : InvoiceTaxes
deriving DecidableEq, Repr

/-- InvoiceResponse from client.go. -/
structure InvoiceResponse where
  ID : String
  Customer : String
  Status : String
  Value : Rat
  ExternalID : String
  PaymentLink : String
deriving DecidableEq, Repr

/-- NotificationEvent from client.go: the inbound webhook shape. -/
structure NotificationEvent where
  Event : String
  Payment : Option PaymentResponse
  Invoice : Option InvoiceResponse
  Subscription : Option SubscriptionResponse
deriving DecidableEq, Repr

/-- CustomerRecord persisted locally (fields as used by service.go and the
columns of repository.go). -/
structure CustomerRecord where
  ID : String
  Name : String
  Email : String
  CpfCnpj : String
  Phone : String
  MobilePhone : String
  Address : String
  AddressNumber : String
  Complement : String
  Province : String
  PostalCode : String
  NotificationDisabled : Bool
  AdditionalEmails : String
  CreatedAt : GoDate
  UpdatedAt : GoDate
deriving DecidableEq, Repr

/-- PaymentRecord persisted locally (fields as used by service.go; the
`SubscriptionID` back-reference is set by the orphan-charge materializer). -/
structure PaymentRecord where
  ID : String
  CustomerID : String
  SubscriptionID : String
  BillingType : String
  Value : Rat
  DueDate : GoDate
  Description : String
  InstallmentCount : Int
  CallbackSuccessURL : String
  CallbackAutoRedirect : Bool
  Status : String
  InvoiceURL : String
  TransactionReceiptURL : String
  CreatedAt : GoDate
  UpdatedAt : GoDate
deriving DecidableEq, Repr

/-- SubscriptionRecord persisted locally (fields as used by service.go). -/
structure SubscriptionRecord where
  ID : String
  CustomerID : String
  BillingType : String
  Status : String
  Value : Rat
  Cycle : String
  NextDueDate : GoDate
  Description : String
  EndDate : GoDate
  MaxPayments : Int
  CreatedAt : GoDate
  UpdatedAt : GoDate
deriving DecidableEq, Repr

/-- InvoiceRecord persisted locally (fields as used by service.go). -/
structure InvoiceRecord where
  ID : String
  PaymentID : String
  ServiceDescription : String
  Observations : String
  Value : Rat
  Deductions : Rat
  EffectiveDate : GoDate
  MunicipalServiceID : String
  MunicipalServiceCode : String
  MunicipalServiceName : String
  UpdatePayment : Bool
  TaxesRetainISS : Bool
  TaxesCofins : Rat
  TaxesCsll : Rat
  TaxesINSS : Rat
  TaxesIR : Rat
  TaxesPIS : Rat
  TaxesISS : Rat
  Status : String
  PaymentLink : String
  CreatedAt : GoDate
  UpdatedAt : GoDate
deriving DecidableEq, Repr

/-- The Local Store: the four PostgreSQL tables of repository.go, at record
granularity. -/
structure LocalStore where
  customers : List CustomerRecord
  payments : List PaymentRecord
  subscriptions : List SubscriptionRecord
  invoices : List InvoiceRecord
deriving DecidableEq, Repr

namespace Repo

/-- repository.go FindCustomerByID: `SELECT ... WHERE id = $1`; `none`
models `sql.ErrNoRows`. -/
def FindCustomerByID (st : LocalStore) (id : String) : Option CustomerRecord :=
  st.customers.find? (fun c => c.ID == id)

/-- repository.go SaveCustomer: `INSERT INTO payment_customers ...`; a
duplicate primary key makes the insert fail. -/
def SaveCustomer (st : LocalStore) (c : CustomerRecord) : Except GoError LocalStore :=
  match FindCustomerByID st c.ID with
  | some _ => .error .dupKey
  | none => .ok { st with customers := st.customers ++ [c] }

/-- repository.go FindPaymentByID: `SELECT ... WHERE id = $1`; `none`
models `sql.ErrNoRows`. -/
def FindPaymentByID (st : LocalStore) (id : String) : Option PaymentRecord :=
  st.payments.find? (fun p => p.ID == id)

/-- repository.go SavePayment: `INSERT INTO payment_payments ...`. -/
def SavePayment (st : LocalStore) (p : PaymentRecord) : Except GoError LocalStore :=
  match FindPaymentByID st p.ID with
  | some _ => .error .dupKey
  | none => .ok { st with payments := st.payments ++ [p] }

/-- The per-row effect of repository.go UpdatePaymentStatus's `UPDATE`:
rows whose id matches get the new status, links and updated_at. -/
def updatePaymentRow (now : GoDate) (id status invoiceURL receiptURL : String)
    (p : PaymentRecord) : PaymentRecord :=
  if p.ID == id then
    { p with Status := status, InvoiceURL := invoiceURL,
             TransactionReceiptURL := receiptURL, UpdatedAt := now }
  else p

/-- repository.go UpdatePaymentStatus: `UPDATE payment_payments SET status,
invoice_url, transaction_receipt_url, updated_at WHERE id=$1`, returning
`sql.ErrNoRows` when zero rows are affected. -/
def UpdatePaymentStatus (st : LocalStore) (now : GoDate)
    (id status invoiceURL receiptURL : String) : Except GoError LocalStore :=
  match FindPaymentByID st id with
  | none => .error .noRows
  | some _ =>
    .ok { st with payments :=
            st.payments.map (updatePaymentRow now id status invoiceURL receiptURL) }

/-- Modelled from the spec: `FindSubscriptionByID` is called by the webhook
handler (service.go) with its absence reported as `sql.ErrNoRows`, but the
repository file under src lacks this one method; per the Local Store
capability surface (`FindByLocalID` for each type) it is the subscription
analogue of `FindPaymentByID`: `SELECT ... WHERE id = $1`. -/
def FindSubscriptionByID (st : LocalStore) (id : String) : Option SubscriptionRecord :=
  st.subscriptions.find? (fun s => s.ID == id)

/-- repository.go SaveSubscription: `INSERT INTO payment_subscriptions ...`. -/
def SaveSubscription (st : LocalStore) (s : SubscriptionRecord) : Except GoError LocalStore :=
  match FindSubscriptionByID st s.ID with
  | some _ => .error .dupKey
  | none => .ok { st with subscriptions := st.subscriptions ++ [s] }

/-- repository.go UpdateSubscriptionStatus: `UPDATE payment_subscriptions SET
status, updated_at WHERE id=$3`, returning `sql.ErrNoRows` when zero rows
are affected. -/
def UpdateSubscriptionStatus (st : LocalStore) (now : GoDate)
    (id status : String) : Except GoError LocalStore :=
  match FindSubscriptionByID st id with
  | none => .error .noRows
  | some _ => .ok { st with subscriptions := st.subscriptions.map (fun s =>
      if s.ID == id then { s with Status := status, UpdatedAt := now } else s) }

/-- repository.go FindInvoiceByPaymentID: `SELECT ... WHERE payment_id = $1
LIMIT 1`; `none` models `sql.ErrNoRows`. -/
def FindInvoiceByPaymentID (st : LocalStore) (paymentID : String) : Option InvoiceRecord :=
  st.invoices.find? (fun i => i.PaymentID == paymentID)

/-- Invoice primary-key lookup backing the `INSERT` uniqueness check. -/
def FindInvoiceByID (st : LocalStore) (id : String) : Option InvoiceRecord :=
  st.invoices.find? (fun i => i.ID == id)

/-- repository.go SaveInvoice: `INSERT INTO payment_invoices ...`. -/
def SaveInvoice (st : LocalStore) (i : InvoiceRecord) : Except GoError LocalStore :=
  match FindInvoiceByID st i.ID with
  | some _ => .error .dupKey
  | none => .ok { st with invoices := st.invoices ++ [i] }

/-- repository.go UpdateInvoiceStatus: `UPDATE payment_invoices SET status,
updated_at WHERE id=$3`, returning `sql.ErrNoRows` when zero rows are
affected. -/
def UpdateInvoiceStatus (st : LocalStore) (now : GoDate)
    (id status : String) : Except GoError LocalStore :=
  match FindInvoiceByID st id with
  | none => .error .noRows
  | some _ => .ok { st with invoices := st.invoices.map (fun i =>
      if i.ID == id then { i with Status := status, UpdatedAt := now } else i) }

end Repo

/-- One outbound call to the Asaas gateway, in issue order. Creations and the
external-reference patch are the gateway mutations; the gets are reads. -/
inductive GatewayCall where
  | createCustomer : CustomerRequest → GatewayCall
  | getCustomer : String → GatewayCall
  | createPayment : PaymentRequest → GatewayCall
  | getPayment : String → GatewayCall
  | createSubscription : SubscriptionRequest → GatewayCall
  | getSubscriptionByID : String → GatewayCall
  | createInvoice : InvoiceRequest → GatewayCall
  | updatePaymentExternalReference : String → String → GatewayCall
deriving DecidableEq, Repr

/-- Whether a gateway call mutates gateway state (create/update, not get). -/
def GatewayCall.isMutation : GatewayCall → Bool
  | .createCustomer _ => true
  | .getCustomer _ => false
  | .createPayment _ => true
  | .getPayment _ => false
  | .createSubscription _ => true
  | .getSubscriptionByID _ => false
  | .createInvoice _ => true
  | .updatePaymentExternalReference _ _ => true

/-- The remote-gateway capability consumed by the service (the AsaasClient
methods of client.go the service calls), as a response oracle: each field
gives the remote answer to one call. -/
structure AsaasClient where
  CreateCustomer : CustomerRequest → Except GoError CustomerResponse
  GetCustomer : String → Except GoError CustomerResponse
  CreatePayment : PaymentRequest → Except GoError PaymentResponse
  GetPayment : String → Except GoError PaymentResponse
  CreateSubscription : SubscriptionRequest → Except GoError SubscriptionResponse
  GetSubscriptionByID : String → Except GoError SubscriptionResponse
  CreateInvoice : InvoiceRequest → Except GoError InvoiceResponse
  UpdatePaymentExternalReference : String → String → Except GoError Unit

/-- Outcome of one service operation: the returned value or error, the Local
Store after the operation, and the gateway calls issued, in order. -/
structure SvcResult (α : Type) where
  res : Except GoError α
  store : LocalStore
  calls : List GatewayCall

namespace Service

/-- service.go RegisterCustomer: build the local record with a fresh local ID
(`generateID`, passed as `newID`), embed it as the external reference, create
remotely, then persist locally. -/
def RegisterCustomer (gw : AsaasClient) (st : LocalStore) (now : GoDate)
    (newID : String) (req : CustomerRequest) :
    SvcResult (CustomerRecord × CustomerResponse) :=
  let localRecord : CustomerRecord :=
    { ID := newID, Name := req.Name, Email := req.Email, CpfCnpj := req.CpfCnpj,
      Phone := req.Phone, MobilePhone := req.MobilePhone, Address := req.Address,
      AddressNumber := req.AddressNumber, Complement := req.Complement,
      Province := req.Province, PostalCode := req.PostalCode,
      NotificationDisabled := req.NotificationDisabled,
      AdditionalEmails := req.AdditionalEmails, CreatedAt := now, UpdatedAt := now }
  let req1 := { req with ExternalID := localRecord.ID }
  match gw.CreateCustomer req1 with
  | .error e => ⟨.error e, st, [.createCustomer req1]⟩
  | .ok remote =>
    match Repo.SaveCustomer st localRecord with
    | .error e => ⟨.error e, st, [.createCustomer req1]⟩
    | .ok st1 => ⟨.ok (localRecord, remote), st1, [.createCustomer req1]⟩

/-- service.go CreatePayment: resolve the local customer, resolve its remote
ID by external reference, create the charge remotely with the fresh local ID
as external reference, then persist the local record. -/
def CreatePayment (gw : AsaasClient) (st : LocalStore) (now : GoDate)
    (newID : String) (req : PaymentRequest) :
    SvcResult (PaymentRecord × PaymentResponse) :=
  match Repo.FindCustomerByID st req.Customer with
  | none => ⟨.error .noRows, st, []⟩
  | some customer =>
    match gw.GetCustomer customer.ID with
    | .error e => ⟨.error e, st, [.getCustomer customer.ID]⟩
    | .ok remoteCustomer =>
      let localID := newID
      let req1 := { req with ExternalID := localID }
      let asaasReq := { req1 with Customer := remoteCustomer.ID }
      match gw.CreatePayment asaasReq with
      | .error e => ⟨.error e, st, [.getCustomer customer.ID, .createPayment asaasReq]⟩
      | .ok remote =>
        let callbackSuccessURL := match req.Callback with
          | some cb => cb.SuccessURL
          | none => ""
        let callbackAutoRedirect := match req.Callback with
          | some cb => cb.AutoRedirect
          | none => false
        let localRecord : PaymentRecord :=
          { ID := localID, CustomerID := customer.ID, SubscriptionID := "",
            BillingType := req.BillingType, Value := req.Value,
            DueDate := parseDate req.DueDate, Description := req.Description,
            InstallmentCount := req.InstallmentCount,
            CallbackSuccessURL := callbackSuccessURL,
            CallbackAutoRedirect := callbackAutoRedirect,
            Status := remote.Status, InvoiceURL := remote.InvoiceURL,
            TransactionReceiptURL := remote.TransactionReceiptURL,
            CreatedAt := now, UpdatedAt := now }
        match Repo.SavePayment st localRecord with
        | .error e => ⟨.error e, st, [.getCustomer customer.ID, .createPayment asaasReq]⟩
        | .ok st1 => ⟨.ok (localRecord, remote), st1, [.getCustomer customer.ID, .createPayment asaasReq]⟩

/-- service.go CreateSubscription: same four-step protocol as CreatePayment
for the recurring-subscription entity. -/
def CreateSubscription (gw : AsaasClient) (st : LocalStore) (now : GoDate)
    (newID : String) (req : SubscriptionRequest) :
    SvcResult (SubscriptionRecord × SubscriptionResponse) :=
  match Repo.FindCustomerByID st req.Customer with
  | none => ⟨.error .noRows, st, []⟩
  | some customer =>
    match gw.GetCustomer customer.ID with
    | .error e => ⟨.error e, st, [.getCustomer customer.ID]⟩
    | .ok remoteCustomer =>
      let localID := newID
      let req1 := { req with ExternalID := localID }
      let asaasReq := { req1 with Customer := remoteCustomer.ID }
      match gw.CreateSubscription asaasReq with
      | .error e => ⟨.error e, st, [.getCustomer customer.ID, .createSubscription asaasReq]⟩
      | .ok remote =>
        let localRecord : SubscriptionRecord :=
          { ID := localID, CustomerID := customer.ID,
            BillingType := req.BillingType, Status := remote.Status,
            Value := req.Value, Cycle := req.Cycle,
            NextDueDate := parseDate req.NextDueDate,
            Description := req.Description, EndDate := parseDate req.EndDate,
            MaxPayments := req.MaxPayments, CreatedAt := now, UpdatedAt := now }
        match Repo.SaveSubscription st localRecord with
        | .error e => ⟨.error e, st, [.getCustomer customer.ID, .createSubscription asaasReq]⟩
        | .ok st1 => ⟨.ok (localRecord, remote), st1, [.getCustomer customer.ID, .createSubscription asaasReq]⟩

/-- service.go CreateInvoice: resolve the parent charge locally and remotely;
the external reference sent (and the new invoice's local ID) is the
caller-supplied `ExternalID` when non-empty, else the parent charge's local
ID; create remotely, then persist locally. -/
def CreateInvoice (gw : AsaasClient) (st : LocalStore) (now : GoDate)
    (req : InvoiceRequest) : SvcResult (InvoiceRecord × InvoiceResponse) :=
  match Repo.FindPaymentByID st req.Payment with
  | none => ⟨.error .noRows, st, []⟩
  | some payment =>
    match gw.GetPayment payment.ID with
    | .error e => ⟨.error e, st, [.getPayment payment.ID]⟩
    | .ok remotePayment =>
      let localID := if req.ExternalID ≠ "" then req.ExternalID else payment.ID
      let req1 := { req with ExternalID := localID }
      let asaasReq := { req1 with Payment := remotePayment.ID }
      match gw.CreateInvoice asaasReq with
      | .error e => ⟨.error e, st, [.getPayment payment.ID, .createInvoice asaasReq]⟩
      | .ok remote =>
        let localRecord : InvoiceRecord :=
          { ID := localID, PaymentID := payment.ID,
            ServiceDescription := req.ServiceDescription,
            Observations := req.Observations, Value := req.Value,
            Deductions := req.Deductions,
            EffectiveDate := parseDate req.EffectiveDate,
            MunicipalServiceID := req.MunicipalServiceID,
            MunicipalServiceCode := req.MunicipalServiceCode,
            MunicipalServiceName := req.MunicipalServiceName,
            UpdatePayment := req.UpdatePayment,
            TaxesRetainISS := req.Taxes.RetainISS, TaxesCofins := req.Taxes.Cofins,
            TaxesCsll := req.Taxes.Csll, TaxesINSS := req.Taxes.INSS,
            TaxesIR := req.Taxes.IR, TaxesPIS := req.Taxes.PIS,
            TaxesISS := req.Taxes.ISS, Status := remote.Status,
            PaymentLink := remote.PaymentLink, CreatedAt := now, UpdatedAt := now }
        match Repo.SaveInvoice st localRecord with
        | .error e => ⟨.error e, st, [.getPayment payment.ID, .createInvoice asaasReq]⟩
        | .ok st1 => ⟨.ok (localRecord, remote), st1, [.getPayment payment.ID, .createInvoice asaasReq]⟩

/-- The fixed legal observations text of service.go issueInvoiceForPayment. -/
def simplesNacionalObservations : String :=
  "NOTA FISCAL EMITIDA POR EMPRESA OPTANTE DO SIMPLES NACIONAL CONFORME LEI COMPLEMENTAR 123/2006. NÃO GERA DIREITO A CRÉDITO DE I.P.I./ICMS."

/-- The fixed municipal service name of service.go issueInvoiceForPayment. -/
def municipalServiceNameDefault : String :=
  "Processamento, armazenamento ou hospedagem de dados, textos, imagens, vídeos, páginas eletrônicas, aplicativos e sistemas de informação, entre outros formatos, e congêneres"

/-- The invoice-creation request service.go issueInvoiceForPayment synthesizes
for a charge with no invoice yet (built inline in the source). -/
def defaultInvoiceRequest (payment : PaymentRecord) (now : GoDate) : InvoiceRequest :=
  { Payment := payment.ID,
    ServiceDescription :=
      if payment.Description ≠ "" then payment.Description
      else "Pagamento " ++ payment.ID,
    Observations := simplesNacionalObservations,
    ExternalID := payment.ID,
    Value := payment.Value,
    Deductions := 0,
    EffectiveDate := formatGoDate now,
    MunicipalServiceID := "",
    MunicipalServiceCode := "01.03.01",
    MunicipalServiceName := municipalServiceNameDefault,
    UpdatePayment := true,
    Taxes := { RetainISS := false, Cofins := 0, Csll := 0, INSS := 0,
               IR := 0, PIS := 0, ISS := 5 } }

/-- service.go issueInvoiceForPayment: if an invoice keyed by the charge's
local ID already exists, do nothing; otherwise synthesize the default request
and run the CreateInvoice flow. (The `payload` argument exists in the source
but is unused there too.) -/
def issueInvoiceForPayment (gw : AsaasClient) (st : LocalStore) (now : GoDate)
    (payment : PaymentRecord) (_payload : PaymentResponse) : SvcResult Unit :=
  match Repo.FindInvoiceByPaymentID st payment.ID with
  | some _ => ⟨.ok (), st, []⟩
  | none =>
    let r := CreateInvoice gw st now (defaultInvoiceRequest payment now)
    match r.res with
    | .error e => ⟨.error e, r.store, r.calls⟩
    | .ok _ => ⟨.ok (), r.store, r.calls⟩

/-- The 27 charge status-notice event names of service.go's webhook switch. -/
def paymentStatusEvents : List String :=
  ["PAYMENT_AUTHORIZED", "PAYMENT_APPROVED_BY_RISK_ANALYSIS", "PAYMENT_CONFIRMED",
   "PAYMENT_ANTICIPATED", "PAYMENT_DELETED", "PAYMENT_REFUNDED",
   "PAYMENT_REFUND_DENIED", "PAYMENT_CHARGEBACK_REQUESTED",
   "PAYMENT_AWAITING_CHARGEBACK_REVERSAL", "PAYMENT_DUNNING_REQUESTED",
   "PAYMENT_CHECKOUT_VIEWED", "PAYMENT_PARTIALLY_REFUNDED",
   "PAYMENT_SPLIT_DIVERGENCE_BLOCK", "PAYMENT_AWAITING_RISK_ANALYSIS",
   "PAYMENT_REPROVED_BY_RISK_ANALYSIS", "PAYMENT_UPDATED", "PAYMENT_RECEIVED",
   "PAYMENT_OVERDUE", "PAYMENT_RESTORED", "PAYMENT_REFUND_IN_PROGRESS",
   "PAYMENT_RECEIVED_IN_CASH_UNDONE", "PAYMENT_CHARGEBACK_DISPUTE",
   "PAYMENT_DUNNING_RECEIVED", "PAYMENT_BANK_SLIP_VIEWED",
   "PAYMENT_CREDIT_CARD_CAPTURE_REFUSED", "PAYMENT_SPLIT_CANCELLED",
   "PAYMENT_SPLIT_DIVERGENCE_BLOCK_FINISHED"]

/-- The subscription status-notice event names of service.go's webhook switch. -/
def subscriptionStatusEvents : List String :=
  ["SUBSCRIPTION_INACTIVATED", "SUBSCRIPTION_SPLIT_DISABLED",
   "SUBSCRIPTION_SPLIT_DIVERGENCE_BLOCK_FINISHED", "SUBSCRIPTION_UPDATED",
   "SUBSCRIPTION_DELETED", "SUBSCRIPTION_SPLIT_DIVERGENCE_BLOCK"]

/-- The invoice status-notice event names of service.go's webhook switch. -/
def invoiceStatusEvents : List String :=
  ["INVOICE_SYNCHRONIZED", "INVOICE_PROCESSING_CANCELLATION",
   "INVOICE_CANCELLATION_DENIED", "INVOICE_UPDATED", "INVOICE_AUTHORIZED",
   "INVOICE_CANCELED", "INVOICE_ERROR"]

/-- Every event name handled by service.go's webhook switch (the closed set). -/
def supportedEvents : List String :=
  "PAYMENT_CREATED" :: "INVOICE_CREATED" :: "SUBSCRIPTION_CREATED" ::
    (paymentStatusEvents ++ subscriptionStatusEvents ++ invoiceStatusEvents)

/-- service.go HandleWebhookNotification: classify the event string and run
the matching branch. `newID` stands for the single `generateID()` call the
PAYMENT_CREATED branch may make. -/
def HandleWebhookNotification (gw : AsaasClient) (st : LocalStore) (now : GoDate)
    (newID : String) (event : NotificationEvent) : SvcResult Unit :=
  if event.Event = "PAYMENT_CREATED" then
    match event.Payment with
    | none => ⟨.error (.errMsg "payload de pagamento ausente"), st, []⟩
    | some p =>
      if p.Subscription = "" then ⟨.ok (), st, []⟩
      else if p.ExternalReference ≠ "" ∧ (Repo.FindPaymentByID st p.ExternalReference).isSome then
        ⟨.ok (), st, []⟩
      else
        match gw.GetSubscriptionByID p.Subscription with
        | .error e => ⟨.error e, st, [.getSubscriptionByID p.Subscription]⟩
        | .ok subscription =>
          if subscription.ExternalID = "" then
            ⟨.error (.errMsg "externalReference da assinatura ausente"), st,
              [.getSubscriptionByID p.Subscription]⟩
          else
            match Repo.FindSubscriptionByID st subscription.ExternalID with
            | none => ⟨.ok (), st, [.getSubscriptionByID p.Subscription]⟩
            | some localSubscription =>
              let localPayment : PaymentRecord :=
                { ID := newID, CustomerID := localSubscription.CustomerID,
                  SubscriptionID := localSubscription.ID,
                  BillingType := p.BillingType, Value := p.Value,
                  DueDate := parseDate p.DueDate, Description := p.Description,
                  InstallmentCount := 0, CallbackSuccessURL := "",
                  CallbackAutoRedirect := false, Status := p.Status,
                  InvoiceURL := p.InvoiceURL,
                  TransactionReceiptURL := p.TransactionReceiptURL,
                  CreatedAt := now, UpdatedAt := now }
              match Repo.SavePayment st localPayment with
              | .error e => ⟨.error e, st, [.getSubscriptionByID p.Subscription]⟩
              | .ok st1 =>
                if p.ID ≠ "" ∧ p.ExternalReference ≠ newID then
                  match gw.UpdatePaymentExternalReference p.ID newID with
                  | .error e => ⟨.error e, st1,
                      [.getSubscriptionByID p.Subscription,
                       .updatePaymentExternalReference p.ID newID]⟩
                  | .ok _ => ⟨.ok (), st1,
                      [.getSubscriptionByID p.Subscription,
                       .updatePaymentExternalReference p.ID newID]⟩
                else ⟨.ok (), st1, [.getSubscriptionByID p.Subscription]⟩
  else if event.Event = "INVOICE_CREATED" ∨ event.Event = "SUBSCRIPTION_CREATED" then
    ⟨.ok (), st, []⟩
  else if event.Event ∈ paymentStatusEvents then
    match event.Payment with
    | none => ⟨.error (.errMsg "payload de pagamento ausente"), st, []⟩
    | some p =>
      match Repo.FindPaymentByID st p.ExternalReference with
      | none => ⟨.ok (), st, []⟩
      | some payment =>
        match Repo.UpdatePaymentStatus st now payment.ID p.Status p.InvoiceURL p.TransactionReceiptURL with
        | .error e => ⟨.error e, st, []⟩
        | .ok st1 => issueInvoiceForPayment gw st1 now payment p
  else if event.Event ∈ subscriptionStatusEvents then
    match event.Subscription with
    | none => ⟨.error (.errMsg "payload de assinatura ausente"), st, []⟩
    | some sub =>
      match Repo.UpdateSubscriptionStatus st now sub.ExternalID sub.Status with
      | .error e => ⟨.error e, st, []⟩
      | .ok st1 => ⟨.ok (), st1, []⟩
  else if event.Event ∈ invoiceStatusEvents then
    match event.Invoice with
    | none => ⟨.error (.errMsg "payload de nota fiscal ausente"), st, []⟩
    | some inv =>
      match Repo.UpdateInvoiceStatus st now inv.ExternalID inv.Status with
      | .error e => ⟨.error e, st, []⟩
      | .ok st1 => ⟨.ok (), st1, []⟩
  else ⟨.error (.errMsg ("tipo de evento não suportado: " ++ event.Event)), st, []⟩

/-- Deliver the same webhook `n` more times, stopping at the first error. -/
def deliverRepeat (gw : AsaasClient) (now : GoDate) (newID : String)
    (event : NotificationEvent) : Nat → LocalStore → Except GoError LocalStore
  | 0, st => .ok st
  | n + 1, st =>
    match (HandleWebhookNotification gw st now newID event).res with
    | .error e => .error e
    | .ok _ => deliverRepeat gw now newID event n (HandleWebhookNotification gw st now newID event).store

end Service

/-- Number of locally stored invoices linked to the given charge local ID. -/
def countInvoicesFor (st : LocalStore) (paymentID : String) : Nat :=
  (st.invoices.filter (fun i => i.PaymentID == paymentID)).length

/-! Concrete fixtures used by witness theorems. -/

/-- An empty Local Store. -/
def emptyStore : LocalStore := ⟨[], [], [], []⟩

/-- A sample current date. -/
def d2025 : GoDate := ⟨2025, 1, 10⟩

/-- A gateway oracle that answers every call successfully with simple data. -/
def gwOk : AsaasClient :=
  { CreateCustomer := fun req => .ok
      { ID := "cus_1", Name := req.Name, Email := req.Email, ExternalID := req.ExternalID },
    GetCustomer := fun ref => .ok
      { ID := "cus_1", Name := "Ana", Email := "ana@x.com", ExternalID := ref },
    CreatePayment := fun req => .ok
      { ID := "pay_1", Customer := req.Customer, BillingType := req.BillingType,
        Value := req.Value, Status := "PENDING", Description := req.Description,
        DueDate := req.DueDate, ExternalReference := req.ExternalID,
        Subscription := "", InvoiceURL := "http://inv", TransactionReceiptURL := "" },
    GetPayment := fun ref => .ok
      { ID := "pay_1", Customer := "cus_1", BillingType := "BOLETO", Value := 150,
        Status := "PENDING", Description := "", DueDate := "2025-01-10",
        ExternalReference := ref, Subscription := "", InvoiceURL := "",
        TransactionReceiptURL := "" },
    CreateSubscription := fun req => .ok
      { ID := "sub_1", Customer := req.Customer, Status := "ACTIVE",
        Value := req.Value, ExternalID := req.ExternalID },
    GetSubscriptionByID := fun id => .ok
      { ID := id, Customer := "cus_1", Status := "ACTIVE", Value := 80,
        ExternalID := "local-sub-5" },
    CreateInvoice := fun req => .ok
      { ID := "inv_1", Customer := "cus_1", Status := "SCHEDULED",
        Value := req.Value, ExternalID := req.ExternalID, PaymentLink := "http://nf" },
    UpdatePaymentExternalReference := fun _ _ => .ok () }

/-- A sample locally registered customer. -/
def custA : CustomerRecord :=
  { ID := "cust-1", Name := "Ana", Email := "ana@x.com", CpfCnpj := "123",
    Phone := "", MobilePhone := "", Address := "", AddressNumber := "",
    Complement := "", Province := "", PostalCode := "",
    NotificationDisabled := false, AdditionalEmails := "",
    CreatedAt := d2025, UpdatedAt := d2025 }

/-- A sample locally stored charge for customer `cust-1`. -/
def payA : PaymentRecord :=
  { ID := "pay-local-1", CustomerID := "cust-1", SubscriptionID := "",
    BillingType := "BOLETO", Value := 150, DueDate := ⟨2025, 1, 10⟩,
    Description := "Hosting", InstallmentCount := 0, CallbackSuccessURL := "",
    CallbackAutoRedirect := false, Status := "PENDING", InvoiceURL := "",
    TransactionReceiptURL := "", CreatedAt := d2025, UpdatedAt := d2025 }

/-- A sample locally stored subscription for customer `cust-1`. -/
def subA : SubscriptionRecord :=
  { ID := "local-sub-5", CustomerID := "cust-1", BillingType := "BOLETO",
    Status := "ACTIVE", Value := 80, Cycle := "MONTHLY",
    NextDueDate := ⟨2025, 2, 1⟩, Description := "Plan", EndDate := GoDate.goZero,
    MaxPayments := 0, CreatedAt := d2025, UpdatedAt := d2025 }

/-- Store holding `custA`, `payA` and `subA`. -/
def stBase : LocalStore := ⟨[custA], [payA], [subA], []⟩

/-- The payment payload of a PAYMENT_RECEIVED notice for the stored charge
`payA`. -/
def prReceived : PaymentResponse :=
  { ID := "pay_1", Customer := "cus_1", BillingType := "BOLETO", Value := 150,
    Status := "RECEIVED", Description := "", DueDate := "2025-01-10",
    ExternalReference := "pay-local-1", Subscription := "", InvoiceURL := "http://inv",
    TransactionReceiptURL := "http://rec" }

/-- A PAYMENT_RECEIVED status notice for the stored charge `payA`. -/
def evReceived : NotificationEvent :=
  { Event := "PAYMENT_RECEIVED", Payment := some prReceived,
    Invoice := none, Subscription := none }

/-- A subscription status notice whose external reference matches no local
subscription. -/
def subNoticeOrphan : NotificationEvent :=
  { Event := "SUBSCRIPTION_INACTIVATED", Payment := none, Invoice := none,
    Subscription := some
      { ID := "sub_9", Customer := "cus_1", Status := "INACTIVE", Value := 80,
        ExternalID := "no-such-local" } }

/-- A charge status notice whose external reference matches no local charge. -/
def payNoticeOrphan : NotificationEvent :=
  { Event := "PAYMENT_OVERDUE",
    Payment := some
      { ID := "pay_77", Customer := "cus_1", BillingType := "BOLETO", Value := 10,
        Status := "OVERDUE", Description := "", DueDate := "", ExternalReference := "unknown-charge",
        Subscription := "", InvoiceURL := "", TransactionReceiptURL := "" },
    Invoice := none, Subscription := none }

/-- A sample invoice-creation request for the stored charge `payA`, with no
caller-supplied external reference. -/
def invReqA : InvoiceRequest :=
  { Payment := "pay-local-1", ServiceDescription := "Hosting NF",
    Observations := "obs", ExternalID := "", Value := 150, Deductions := 0,
    EffectiveDate := "2025-01-10", MunicipalServiceID := "",
    MunicipalServiceCode := "01.03.01", MunicipalServiceName := "svc",
    UpdatePayment := true,
    Taxes := ⟨false, 0, 0, 0, 0, 0, 5⟩ }

/-- The remote payment `gwOk.GetPayment` answers for `payA.ID`. -/
def rpA : PaymentResponse :=
  { ID := "pay_1", Customer := "cus_1", BillingType := "BOLETO", Value := 150,
    Status := "PENDING", Description := "", DueDate := "2025-01-10",
    ExternalReference := "pay-local-1", Subscription := "", InvoiceURL := "",
    TransactionReceiptURL := "" }

/-- Sample customer-registration request. -/
def custReqA : CustomerRequest :=
  { Name := "Ana", Email := "ana@x.com", CpfCnpj := "123", Phone := "",
    MobilePhone := "", Address := "", AddressNumber := "", Complement := "",
    Province := "", PostalCode := "", ExternalID := "",
    NotificationDisabled := false, AdditionalEmails := "" }

/-- Sample charge-creation request for local customer `cust-1`. -/
def payReqA : PaymentRequest :=
  { Customer := "cust-1", BillingType := "BOLETO", Value := 150,
    DueDate := "2025-01-10", Description := "Hosting", InstallmentCount := 0,
    ExternalID := "", Callback := none }

/-- Sample subscription-creation request for local customer `cust-1`. -/
def subReqA : SubscriptionRequest :=
  { Customer := "cust-1", BillingType := "BOLETO", Value := 80,
    NextDueDate := "2025-02-01", Cycle := "MONTHLY", ExternalID := "",
    Description := "Plan", EndDate := "", MaxPayments := 0 }

/-- The remote customer `gwOk.GetCustomer` answers for `cust-1`. -/
def rcA : CustomerResponse :=
  { ID := "cus_1", Name := "Ana", Email := "ana@x.com", ExternalID := "cust-1" }

/-- A gateway whose create operations all fail while the lookups answer as
`gwOk` does. -/
def gwCreateFail : AsaasClient :=
  { gwOk with
    CreateCustomer := fun _ => .error (.errMsg "gateway indisponível"),
    CreatePayment := fun _ => .error (.errMsg "gateway indisponível"),
    CreateSubscription := fun _ => .error (.errMsg "gateway indisponível"),
    CreateInvoice := fun _ => .error (.errMsg "gateway indisponível") }

/-- The inbound payment object of a gateway-originated PAYMENT_CREATED
notice: it references remote subscription `gw-sub-9` and carries no external
reference yet. -/
def pOrphan : PaymentResponse :=
  { ID := "pay_9", Customer := "cus_1", BillingType := "BOLETO", Value := 80,
    Status := "PENDING", Description := "Cycle charge", DueDate := "2025-02-01",
    ExternalReference := "", Subscription := "gw-sub-9", InvoiceURL := "",
    TransactionReceiptURL := "" }

/-- The PAYMENT_CREATED notice carrying `pOrphan`. -/
def evOrphanCreate : NotificationEvent :=
  { Event := "PAYMENT_CREATED", Payment := some pOrphan, Invoice := none,
    Subscription := none }

/-- The remote subscription `gwOk.GetSubscriptionByID` answers for
`gw-sub-9`; its external reference resolves to local `local-sub-5`. -/
def subResp9 : SubscriptionResponse :=
  { ID := "gw-sub-9", Customer := "cus_1", Status := "ACTIVE", Value := 80,
    ExternalID := "local-sub-5" }

/-- Modelled from the spec: the gateway's own record store. The gateway is
the external Asaas service — not code of this repository — so §6's
capability surface is modelled here: creations register the payload under a
gateway-assigned ID, and the get-by-external-reference lookups (which
client.go implements as `?externalReference=` queries that error on an
empty result) return the matching stored record. -/
structure GatewayState where
  customers : List CustomerResponse
  payments : List PaymentResponse
  subscriptions : List SubscriptionResponse
  invoices : List InvoiceResponse
deriving DecidableEq, Repr

namespace GatewayModel

/-- Modelled from the spec: createCustomer(payload) → {id, externalReference, ...}. -/
def CreateCustomer (g : GatewayState) (rid : String) (req : CustomerRequest) :
    GatewayState × CustomerResponse :=
  let resp : CustomerResponse :=
    { ID := rid, Name := req.Name, Email := req.Email, ExternalID := req.ExternalID }
  ({ g with customers := g.customers ++ [resp] }, resp)

/-- Modelled from the spec: getCustomerByExternalReference(localID) → record | NotFound. -/
def GetCustomer (g : GatewayState) (ref : String) : Except GoError CustomerResponse :=
  match g.customers.find? (fun c => c.ExternalID == ref) with
  | some c => .ok c
  | none => .error (.errMsg "cliente não encontrado")

/-- Modelled from the spec: createCharge(payload) → {id, status, externalReference, ...}. -/
def CreatePayment (g : GatewayState) (rid status : String) (req : PaymentRequest) :
    GatewayState × PaymentResponse :=
  let resp : PaymentResponse :=
    { ID := rid, Customer := req.Customer, BillingType := req.BillingType,
      Value := req.Value, Status := status, Description := req.Description,
      DueDate := req.DueDate, ExternalReference := req.ExternalID,
      Subscription := "", InvoiceURL := "", TransactionReceiptURL := "" }
  ({ g with payments := g.payments ++ [resp] }, resp)

/-- Modelled from the spec: getChargeByExternalReference(localID) → record | NotFound. -/
def GetPayment (g : GatewayState) (ref : String) : Except GoError PaymentResponse :=
  match g.payments.find? (fun c => c.ExternalReference == ref) with
  | some c => .ok c
  | none => .error (.errMsg "pagamento não encontrado")

/-- Modelled from the spec: createSubscription(payload) → {id, status, externalReference}. -/
def CreateSubscription (g : GatewayState) (rid status : String)
    (req : SubscriptionRequest) : GatewayState × SubscriptionResponse :=
  let resp : SubscriptionResponse :=
    { ID := rid, Customer := req.Customer, Status := status, Value := req.Value,
      ExternalID := req.ExternalID }
  ({ g with subscriptions := g.subscriptions ++ [resp] }, resp)

/-- Modelled from the spec: getSubscriptionByExternalReference(localID) → record | NotFound. -/
def GetSubscription (g : GatewayState) (ref : String) : Except GoError SubscriptionResponse :=
  match g.subscriptions.find? (fun c => c.ExternalID == ref) with
  | some c => .ok c
  | none => .error (.errMsg "assinatura não encontrada")

/-- Modelled from the spec: getSubscriptionByRemoteID(remoteID) → record | NotFound. -/
def GetSubscriptionByID (g : GatewayState) (id : String) : Except GoError SubscriptionResponse :=
  match g.subscriptions.find? (fun c => c.ID == id) with
  | some c => .ok c
  | none => .error (.errMsg "assinatura não encontrada")

/-- Modelled from the spec: createInvoice(payload) → {id, status, externalReference, paymentLink}. -/
def CreateInvoice (g : GatewayState) (rid status : String) (req : InvoiceRequest) :
    GatewayState × InvoiceResponse :=
  let resp : InvoiceResponse :=
    { ID := rid, Customer := "", Status := status, Value := req.Value,
      ExternalID := req.ExternalID, PaymentLink := "" }
  ({ g with invoices := g.invoices ++ [resp] }, resp)

/-- Modelled from the spec: getInvoiceByExternalReference(localID) → record | NotFound. -/
def GetInvoice (g : GatewayState) (ref : String) : Except GoError InvoiceResponse :=
  match g.invoices.find? (fun c => c.ExternalID == ref) with
  | some c => .ok c
  | none => .error (.errMsg "nota fiscal não encontrada")

/-- The oracle a fixed gateway state presents to one service operation:
reads answer from the state; creations answer with exactly the record the
model registers (gateway-assigned ID `rid`, initial status `status`). -/
def oracle (g : GatewayState) (rid status : String) : AsaasClient :=
  { CreateCustomer := fun req => .ok (CreateCustomer g rid req).2,
    GetCustomer := fun ref => GetCustomer g ref,
    CreatePayment := fun req => .ok (CreatePayment g rid status req).2,
    GetPayment := fun ref => GetPayment g ref,
    CreateSubscription := fun req => .ok (CreateSubscription g rid status req).2,
    GetSubscriptionByID := fun id => GetSubscriptionByID g id,
    CreateInvoice := fun req => .ok (CreateInvoice g rid status req).2,
    UpdatePaymentExternalReference := fun _ _ => .ok () }

end GatewayModel

/-- An empty gateway state. -/
def gEmpty : GatewayState := ⟨[], [], [], []⟩

/-- A gateway state holding only the remote counterpart of `custA`. -/
def gWithCustomer : GatewayState := ⟨[rcA], [], [], []⟩

/-- A charge-creation request whose dueDate is not in yyyy-mm-dd form. -/
def payReqBad : PaymentRequest :=
  { Customer := "cust-1", BillingType := "BOLETO", Value := 150,
    DueDate := "31/12/2025", Description := "Hosting", InstallmentCount := 0,
    ExternalID := "", Callback := none }

/-- The response `gwOk` gives to the malformed-date charge request. -/
def remoteBadPay : PaymentResponse :=
  { ID := "pay_1", Customer := "cus_1", BillingType := "BOLETO", Value := 150,
    Status := "PENDING", Description := "Hosting", DueDate := "31/12/2025",
    ExternalReference := "new-1", Subscription := "", InvoiceURL := "http://inv",
    TransactionReceiptURL := "" }

/-! ## Theorems -/

/-- C6: every webhook whose event string lies outside the declared closed set
of event types makes `HandleWebhookNotification` return the
unsupported-event error, with the Local Store untouched and no gateway call
issued. -/
theorem webhook_unsupportedEvent_rejected (gw : AsaasClient) (st : LocalStore)
    (now : GoDate) (newID : String) (event : NotificationEvent)
    (h : event.Event ∉ Service.supportedEvents) :
    Service.HandleWebhookNotification gw st now newID event =
      ⟨.error (.errMsg ("tipo de evento não suportado: " ++ event.Event)), st, []⟩ := by
  unfold Service.HandleWebhookNotification
  rw [if_neg (fun hc => h (by simp [Service.supportedEvents, hc])),
      if_neg (fun hc => h (by rcases hc with hc | hc <;> simp [Service.supportedEvents, hc])),
      if_neg (fun hm => h (by simp [Service.supportedEvents, hm])),
      if_neg (fun hm => h (by simp [Service.supportedEvents, hm])),
      if_neg (fun hm => h (by simp [Service.supportedEvents, hm]))]

/-- Witness for C6 at the spec's literal scenario 5. -/
theorem webhook_unsupportedEvent_rejected_witness :
    Service.HandleWebhookNotification gwOk emptyStore d2025 "new-1"
      ⟨"SOMETHING_UNKNOWN", none, none, none⟩ =
      ⟨.error (.errMsg ("tipo de evento não suportado: " ++ "SOMETHING_UNKNOWN")),
        emptyStore, []⟩ :=
  webhook_unsupportedEvent_rejected gwOk emptyStore d2025 "new-1"
    ⟨"SOMETHING_UNKNOWN", none, none, none⟩ (by decide)

/-- C7 counterexample: an INVOICE_CREATED webhook with every payload
sub-object absent is acknowledged with success by
`HandleWebhookNotification`, not rejected as malformed — the claim's "for
every event category in the closed set (creation notices included)" fails
for the non-actionable creation notices. -/
theorem webhook_invoiceCreated_missingPayload_acknowledged :
    Service.HandleWebhookNotification gwOk emptyStore d2025 "new-1"
      ⟨"INVOICE_CREATED", none, none, none⟩ = ⟨.ok (), emptyStore, []⟩ := rfl

/-- C7 (amended): PAYMENT_CREATED and the three status-notice categories
reject an absent matching payload sub-object with a malformed-payload error
and no mutation; the non-actionable creation notices INVOICE_CREATED and
SUBSCRIPTION_CREATED are acknowledged with success without any payload
check. -/
theorem webhook_missingPayload_behavior (gw : AsaasClient) (st : LocalStore)
    (now : GoDate) (newID : String) (event : NotificationEvent) :
    ((event.Event = "PAYMENT_CREATED" ∨ event.Event ∈ Service.paymentStatusEvents) →
       event.Payment = none →
       Service.HandleWebhookNotification gw st now newID event =
         ⟨.error (.errMsg "payload de pagamento ausente"), st, []⟩) ∧
    (event.Event ∈ Service.subscriptionStatusEvents → event.Subscription = none →
       Service.HandleWebhookNotification gw st now newID event =
         ⟨.error (.errMsg "payload de assinatura ausente"), st, []⟩) ∧
    (event.Event ∈ Service.invoiceStatusEvents → event.Invoice = none →
       Service.HandleWebhookNotification gw st now newID event =
         ⟨.error (.errMsg "payload de nota fiscal ausente"), st, []⟩) ∧
    ((event.Event = "INVOICE_CREATED" ∨ event.Event = "SUBSCRIPTION_CREATED") →
       Service.HandleWebhookNotification gw st now newID event = ⟨.ok (), st, []⟩) := by
  refine ⟨?_, ?_, ?_, ?_⟩
  · rintro (hev | hev) hp
    · unfold Service.HandleWebhookNotification
      rw [if_pos hev, hp]
    · have d1 : event.Event ≠ "PAYMENT_CREATED" := fun hc =>
        absurd (hc ▸ hev) (by decide)
      have d2 : ¬(event.Event = "INVOICE_CREATED" ∨ event.Event = "SUBSCRIPTION_CREATED") := by
        rintro (hc | hc) <;> exact absurd (hc ▸ hev) (by decide)
      unfold Service.HandleWebhookNotification
      rw [if_neg d1, if_neg d2, if_pos hev, hp]
  · intro hev hp
    have d1 : event.Event ≠ "PAYMENT_CREATED" := fun hc =>
      absurd (hc ▸ hev) (by decide)
    have d2 : ¬(event.Event = "INVOICE_CREATED" ∨ event.Event = "SUBSCRIPTION_CREATED") := by
      rintro (hc | hc) <;> exact absurd (hc ▸ hev) (by decide)
    have d3 : event.Event ∉ Service.paymentStatusEvents := fun hm =>
      (by decide : ∀ x ∈ Service.subscriptionStatusEvents,
        x ∉ Service.paymentStatusEvents) _ hev hm
    unfold Service.HandleWebhookNotification
    rw [if_neg d1, if_neg d2, if_neg d3, if_pos hev, hp]
  · intro hev hp
    have d1 : event.Event ≠ "PAYMENT_CREATED" := fun hc =>
      absurd (hc ▸ hev) (by decide)
    have d2 : ¬(event.Event = "INVOICE_CREATED" ∨ event.Event = "SUBSCRIPTION_CREATED") := by
      rintro (hc | hc) <;> exact absurd (hc ▸ hev) (by decide)
    have d3 : event.Event ∉ Service.paymentStatusEvents := fun hm =>
      (by decide : ∀ x ∈ Service.invoiceStatusEvents,
        x ∉ Service.paymentStatusEvents) _ hev hm
    have d4 : event.Event ∉ Service.subscriptionStatusEvents := fun hm =>
      (by decide : ∀ x ∈ Service.invoiceStatusEvents,
        x ∉ Service.subscriptionStatusEvents) _ hev hm
    unfold Service.HandleWebhookNotification
    rw [if_neg d1, if_neg d2, if_neg d3, if_neg d4, if_pos hev, hp]
  · rintro (hc | hc) <;>
      · unfold Service.HandleWebhookNotification
        rw [hc, if_neg (by decide), if_pos (by decide)]

/-- Witness for the C7 amended theorem: a PAYMENT_RECEIVED notice without a
payment payload is rejected as malformed with no mutation. -/
theorem webhook_missingPayload_behavior_witness :
    Service.HandleWebhookNotification gwOk emptyStore d2025 "new-1"
      ⟨"PAYMENT_RECEIVED", none, none, none⟩ =
      ⟨.error (.errMsg "payload de pagamento ausente"), emptyStore, []⟩ :=
  (webhook_missingPayload_behavior gwOk emptyStore d2025 "new-1"
      ⟨"PAYMENT_RECEIVED", none, none, none⟩).1 (Or.inr (by decide)) rfl

/-- C2 counterexample: a SUBSCRIPTION_INACTIVATED status notice whose
external reference matches no local subscription makes
`HandleWebhookNotification` return the `sql.ErrNoRows` error rather than
success — the claim's "returns success (nil error) ... for all three entity
types alike" fails for subscription (and invoice) notices. -/
theorem webhook_subscriptionNotice_unmatched_errors :
    Service.HandleWebhookNotification gwOk emptyStore d2025 "new-1" subNoticeOrphan =
      ⟨.error .noRows, emptyStore, []⟩ := rfl

/-- C2 (amended): a status notice whose external reference matches no local
record performs zero Local Store mutations and issues no gateway call for
all three entity types; but only charge status notices acknowledge with
success — unmatched subscription and invoice status notices propagate the
`sql.ErrNoRows` error that `UPDATE ... RowsAffected() == 0` produces. -/
theorem webhook_statusNotice_unmatched_behavior (gw : AsaasClient)
    (st : LocalStore) (now : GoDate) (newID : String) (event : NotificationEvent) :
    (∀ p, event.Event ∈ Service.paymentStatusEvents → event.Payment = some p →
       Repo.FindPaymentByID st p.ExternalReference = none →
       Service.HandleWebhookNotification gw st now newID event = ⟨.ok (), st, []⟩) ∧
    (∀ sub, event.Event ∈ Service.subscriptionStatusEvents →
       event.Subscription = some sub →
       Repo.FindSubscriptionByID st sub.ExternalID = none →
       Service.HandleWebhookNotification gw st now newID event =
         ⟨.error .noRows, st, []⟩) ∧
    (∀ inv, event.Event ∈ Service.invoiceStatusEvents → event.Invoice = some inv →
       Repo.FindInvoiceByID st inv.ExternalID = none →
       Service.HandleWebhookNotification gw st now newID event =
         ⟨.error .noRows, st, []⟩) := by
  refine ⟨?_, ?_, ?_⟩
  · intro p hev hp hfind
    have d1 : event.Event ≠ "PAYMENT_CREATED" := fun hc =>
      absurd (hc ▸ hev) (by decide)
    have d2 : ¬(event.Event = "INVOICE_CREATED" ∨ event.Event = "SUBSCRIPTION_CREATED") := by
      rintro (hc | hc) <;> exact absurd (hc ▸ hev) (by decide)
    unfold Service.HandleWebhookNotification
    rw [if_neg d1, if_neg d2, if_pos hev]
    simp only [hp, hfind]
  · intro sub hev hs hfind
    have d1 : event.Event ≠ "PAYMENT_CREATED" := fun hc =>
      absurd (hc ▸ hev) (by decide)
    have d2 : ¬(event.Event = "INVOICE_CREATED" ∨ event.Event = "SUBSCRIPTION_CREATED") := by
      rintro (hc | hc) <;> exact absurd (hc ▸ hev) (by decide)
    have d3 : event.Event ∉ Service.paymentStatusEvents := fun hm =>
      (by decide : ∀ x ∈ Service.subscriptionStatusEvents,
        x ∉ Service.paymentStatusEvents) _ hev hm
    unfold Service.HandleWebhookNotification
    rw [if_neg d1, if_neg d2, if_neg d3, if_pos hev]
    simp only [hs, Repo.UpdateSubscriptionStatus, hfind]
  · intro inv hev hi hfind
    have d1 : event.Event ≠ "PAYMENT_CREATED" := fun hc =>
      absurd (hc ▸ hev) (by decide)
    have d2 : ¬(event.Event = "INVOICE_CREATED" ∨ event.Event = "SUBSCRIPTION_CREATED") := by
      rintro (hc | hc) <;> exact absurd (hc ▸ hev) (by decide)
    have d3 : event.Event ∉ Service.paymentStatusEvents := fun hm =>
      (by decide : ∀ x ∈ Service.invoiceStatusEvents,
        x ∉ Service.paymentStatusEvents) _ hev hm
    have d4 : event.Event ∉ Service.subscriptionStatusEvents := fun hm =>
      (by decide : ∀ x ∈ Service.invoiceStatusEvents,
        x ∉ Service.subscriptionStatusEvents) _ hev hm
    unfold Service.HandleWebhookNotification
    rw [if_neg d1, if_neg d2, if_neg d3, if_neg d4, if_pos hev]
    simp only [hi, Repo.UpdateInvoiceStatus, hfind]

/-- Witness for the C2 amended theorem: a PAYMENT_OVERDUE notice for an
unknown charge is a success no-op on a populated store. -/
theorem webhook_statusNotice_unmatched_behavior_witness :
    Service.HandleWebhookNotification gwOk stBase d2025 "new-1" payNoticeOrphan =
      ⟨.ok (), stBase, []⟩ :=
  (webhook_statusNotice_unmatched_behavior gwOk stBase d2025 "new-1"
      payNoticeOrphan).1 _ (by decide) rfl rfl

/-- C8: in the CreateInvoice flow, the external reference sent to the
gateway is the caller-supplied `ExternalID` when non-empty and otherwise the
parent charge's local ID, and on success that same string is the new
invoice record's local ID. -/
theorem createInvoice_externalReference_rule (gw : AsaasClient)
    (st : LocalStore) (now : GoDate) (req : InvoiceRequest)
    (payment : PaymentRecord) (rp : PaymentResponse)
    (hfind : Repo.FindPaymentByID st req.Payment = some payment)
    (hget : gw.GetPayment payment.ID = .ok rp) :
    (Service.CreateInvoice gw st now req).calls =
      [.getPayment payment.ID,
       .createInvoice { req with
          ExternalID := if req.ExternalID ≠ "" then req.ExternalID else payment.ID,
          Payment := rp.ID }] ∧
    (∀ rec remote, (Service.CreateInvoice gw st now req).res = .ok (rec, remote) →
       rec.ID = if req.ExternalID ≠ "" then req.ExternalID else payment.ID) := by
  unfold Service.CreateInvoice
  simp only [hfind, hget]
  refine ⟨?_, ?_⟩
  · split
    · rfl
    · split
      · rfl
      · rfl
  · intro rec remote hres
    split at hres
    · simp at hres
    · split at hres
      · simp at hres
      · simp only [Except.ok.injEq, Prod.mk.injEq] at hres
        rw [← hres.1]

/-- Witness for C8: with no caller-supplied reference, the request sent to
the gateway and the stored invoice both carry the parent charge's local ID. -/
theorem createInvoice_externalReference_rule_witness :
    (Service.CreateInvoice gwOk stBase d2025 invReqA).calls =
      [.getPayment payA.ID,
       .createInvoice { invReqA with
          ExternalID := if invReqA.ExternalID ≠ "" then invReqA.ExternalID else payA.ID,
          Payment := rpA.ID }] ∧
    (∀ rec remote,
       (Service.CreateInvoice gwOk stBase d2025 invReqA).res = .ok (rec, remote) →
       rec.ID = if invReqA.ExternalID ≠ "" then invReqA.ExternalID else payA.ID) :=
  createInvoice_externalReference_rule gwOk stBase d2025 invReqA payA rpA rfl rfl

/-- C3: in each of the four creation flows the gateway's create call failing
makes the operation return that gateway error with the Local Store exactly
as it was before the call (for the flows with earlier steps, under the
hypotheses that those steps succeeded and the create was reached). -/
theorem createFlows_gatewayError_noPersist (gw : AsaasClient) (st : LocalStore)
    (now : GoDate) (newID : String) (e : GoError) :
    (∀ req : CustomerRequest,
       gw.CreateCustomer { req with ExternalID := newID } = .error e →
       (Service.RegisterCustomer gw st now newID req).res = .error e ∧
       (Service.RegisterCustomer gw st now newID req).store = st) ∧
    (∀ (req : PaymentRequest) (customer : CustomerRecord) (rc : CustomerResponse),
       Repo.FindCustomerByID st req.Customer = some customer →
       gw.GetCustomer customer.ID = .ok rc →
       gw.CreatePayment { req with ExternalID := newID, Customer := rc.ID } = .error e →
       (Service.CreatePayment gw st now newID req).res = .error e ∧
       (Service.CreatePayment gw st now newID req).store = st) ∧
    (∀ (req : SubscriptionRequest) (customer : CustomerRecord) (rc : CustomerResponse),
       Repo.FindCustomerByID st req.Customer = some customer →
       gw.GetCustomer customer.ID = .ok rc →
       gw.CreateSubscription { req with ExternalID := newID, Customer := rc.ID } = .error e →
       (Service.CreateSubscription gw st now newID req).res = .error e ∧
       (Service.CreateSubscription gw st now newID req).store = st) ∧
    (∀ (req : InvoiceRequest) (payment : PaymentRecord) (rp : PaymentResponse),
       Repo.FindPaymentByID st req.Payment = some payment →
       gw.GetPayment payment.ID = .ok rp →
       gw.CreateInvoice { req with
           ExternalID := if req.ExternalID ≠ "" then req.ExternalID else payment.ID,
           Payment := rp.ID } = .error e →
       (Service.CreateInvoice gw st now req).res = .error e ∧
       (Service.CreateInvoice gw st now req).store = st) := by
  refine ⟨?_, ?_, ?_, ?_⟩
  · intro req hcr
    unfold Service.RegisterCustomer
    simp only [hcr]
    exact ⟨by trivial, by trivial⟩
  · intro req customer rc hfind hget hcr
    unfold Service.CreatePayment
    simp only [hfind, hget, hcr]
    exact ⟨by trivial, by trivial⟩
  · intro req customer rc hfind hget hcr
    unfold Service.CreateSubscription
    simp only [hfind, hget, hcr]
    exact ⟨by trivial, by trivial⟩
  · intro req payment rp hfind hget hcr
    unfold Service.CreateInvoice
    simp only [hfind, hget, hcr]
    exact ⟨by trivial, by trivial⟩

/-- Witness for C3: all four flows against a gateway that rejects creates,
on the populated store `stBase`. -/
theorem createFlows_gatewayError_noPersist_witness :
    ((Service.RegisterCustomer gwCreateFail stBase d2025 "new-1" custReqA).res =
        .error (.errMsg "gateway indisponível") ∧
     (Service.RegisterCustomer gwCreateFail stBase d2025 "new-1" custReqA).store = stBase) ∧
    ((Service.CreatePayment gwCreateFail stBase d2025 "new-1" payReqA).res =
        .error (.errMsg "gateway indisponível") ∧
     (Service.CreatePayment gwCreateFail stBase d2025 "new-1" payReqA).store = stBase) ∧
    ((Service.CreateSubscription gwCreateFail stBase d2025 "new-1" subReqA).res =
        .error (.errMsg "gateway indisponível") ∧
     (Service.CreateSubscription gwCreateFail stBase d2025 "new-1" subReqA).store = stBase) ∧
    ((Service.CreateInvoice gwCreateFail stBase d2025 invReqA).res =
        .error (.errMsg "gateway indisponível") ∧
     (Service.CreateInvoice gwCreateFail stBase d2025 invReqA).store = stBase) :=
  ⟨(createFlows_gatewayError_noPersist gwCreateFail stBase d2025 "new-1" _).1
      custReqA rfl,
   (createFlows_gatewayError_noPersist gwCreateFail stBase d2025 "new-1" _).2.1
      payReqA custA rcA rfl rfl rfl,
   (createFlows_gatewayError_noPersist gwCreateFail stBase d2025 "new-1" _).2.2.1
      subReqA custA rcA rfl rfl rfl,
   (createFlows_gatewayError_noPersist gwCreateFail stBase d2025 "new-1" _).2.2.2
      invReqA payA rpA rfl rfl rfl⟩

/-- C5: when the Invoice Issuer runs for a stored charge with no existing
invoice, the invoice-creation request it sends to the gateway carries exactly
the deterministic defaults: the fixed simples-nacional observations text,
municipal service code "01.03.01", all withholding taxes zero except
ISS = 5 with retainIss = false, deductions 0, effective date formatted from
the current date, value equal to the charge's value, and service description
equal to the charge's description or, when empty, the generated fallback
naming the charge's local ID ("Pagamento <id>", the source-terminology form
of the spec's "Charge <id>"). -/
theorem issueInvoice_default_request (gw : AsaasClient) (st : LocalStore)
    (now : GoDate) (payment : PaymentRecord) (payload : PaymentResponse)
    (rp : PaymentResponse)
    (hnoinv : Repo.FindInvoiceByPaymentID st payment.ID = none)
    (hfindPay : Repo.FindPaymentByID st payment.ID = some payment)
    (hget : gw.GetPayment payment.ID = .ok rp) :
    (Service.issueInvoiceForPayment gw st now payment payload).calls =
      [.getPayment payment.ID,
       .createInvoice
         { Payment := rp.ID,
           ServiceDescription :=
             if payment.Description ≠ "" then payment.Description
             else "Pagamento " ++ payment.ID,
           Observations := Service.simplesNacionalObservations,
           ExternalID := payment.ID,
           Value := payment.Value,
           Deductions := 0,
           EffectiveDate := formatGoDate now,
           MunicipalServiceID := "",
           MunicipalServiceCode := "01.03.01",
           MunicipalServiceName := Service.municipalServiceNameDefault,
           UpdatePayment := true,
           Taxes := ⟨false, 0, 0, 0, 0, 0, 5⟩ }] := by
  have hr : (Service.CreateInvoice gw st now
      (Service.defaultInvoiceRequest payment now)).calls =
      [.getPayment payment.ID,
       .createInvoice
         { Payment := rp.ID,
           ServiceDescription :=
             if payment.Description ≠ "" then payment.Description
             else "Pagamento " ++ payment.ID,
           Observations := Service.simplesNacionalObservations,
           ExternalID := payment.ID,
           Value := payment.Value,
           Deductions := 0,
           EffectiveDate := formatGoDate now,
           MunicipalServiceID := "",
           MunicipalServiceCode := "01.03.01",
           MunicipalServiceName := Service.municipalServiceNameDefault,
           UpdatePayment := true,
           Taxes := ⟨false, 0, 0, 0, 0, 0, 5⟩ }] := by
    unfold Service.CreateInvoice Service.defaultInvoiceRequest
    simp only [hfindPay, hget, ite_self]
    split
    · rfl
    · split <;> rfl
  unfold Service.issueInvoiceForPayment
  simp only [hnoinv]
  split <;> exact hr

/-- Witness for C5: the issuer for stored charge `payA` (description
"Hosting", value 150) sends exactly the default request. -/
theorem issueInvoice_default_request_witness :
    (Service.issueInvoiceForPayment gwOk stBase d2025 payA rpA).calls =
      [.getPayment payA.ID,
       .createInvoice
         { Payment := rpA.ID,
           ServiceDescription :=
             if payA.Description ≠ "" then payA.Description
             else "Pagamento " ++ payA.ID,
           Observations := Service.simplesNacionalObservations,
           ExternalID := payA.ID,
           Value := payA.Value,
           Deductions := 0,
           EffectiveDate := formatGoDate d2025,
           MunicipalServiceID := "",
           MunicipalServiceCode := "01.03.01",
           MunicipalServiceName := Service.municipalServiceNameDefault,
           UpdatePayment := true,
           Taxes := ⟨false, 0, 0, 0, 0, 0, 5⟩ }] :=
  issueInvoice_default_request gwOk stBase d2025 payA rpA rpA rfl rfl rfl

/-- Shape of the orphan-charge (PAYMENT_CREATED) branch: materialization
appends exactly one charge built from the resolved local Subscription and
the notice, and an unknown local subscription is a success no-op. -/
theorem webhook_orphanBranch_shape (gw : AsaasClient)
    (st : LocalStore) (now : GoDate) (newID : String) (event : NotificationEvent)
    (p : PaymentResponse) (subResp : SubscriptionResponse)
    (hev : event.Event = "PAYMENT_CREATED")
    (hp : event.Payment = some p)
    (hsub : p.Subscription ≠ "")
    (hnew : Repo.FindPaymentByID st p.ExternalReference = none)
    (hget : gw.GetSubscriptionByID p.Subscription = .ok subResp)
    (href : subResp.ExternalID ≠ "") :
    (∀ localSub, Repo.FindSubscriptionByID st subResp.ExternalID = some localSub →
       Repo.FindPaymentByID st newID = none →
       (Service.HandleWebhookNotification gw st now newID event).store =
         { st with payments := st.payments ++
             [{ ID := newID, CustomerID := localSub.CustomerID,
                SubscriptionID := localSub.ID, BillingType := p.BillingType,
                Value := p.Value, DueDate := parseDate p.DueDate,
                Description := p.Description, InstallmentCount := 0,
                CallbackSuccessURL := "", CallbackAutoRedirect := false,
                Status := p.Status, InvoiceURL := p.InvoiceURL,
                TransactionReceiptURL := p.TransactionReceiptURL,
                CreatedAt := now, UpdatedAt := now }] }) ∧
    (Repo.FindSubscriptionByID st subResp.ExternalID = none →
       Service.HandleWebhookNotification gw st now newID event =
         ⟨.ok (), st, [.getSubscriptionByID p.Subscription]⟩) := by
  constructor
  · intro localSub hfindSub hfresh
    unfold Service.HandleWebhookNotification
    rw [if_pos hev]
    simp only [hp]
    rw [if_neg hsub, if_neg (fun hc => by simp [hnew] at hc)]
    simp only [hget]
    rw [if_neg href]
    simp only [hfindSub]
    unfold Repo.SavePayment
    simp only [hfresh]
    split
    · split <;> rfl
    · rfl
  · intro hfindSub
    unfold Service.HandleWebhookNotification
    rw [if_pos hev]
    simp only [hp]
    rw [if_neg hsub, if_neg (fun hc => by simp [hnew] at hc)]
    simp only [hget]
    rw [if_neg href]
    simp only [hfindSub]

/-- C4: a PAYMENT_CREATED notice with a subscription reference, whose
external reference matches no local charge: when the remote subscription
resolves to a locally known Subscription, the store gains exactly one new
charge whose customerID is that Subscription's customerID, whose
subscriptionID is that Subscription's local ID, and whose status is the
notice's status verbatim; when the resolved subscription is unknown locally
the handler is a success no-op. -/
theorem webhook_orphanCharge_materialization (gw : AsaasClient)
    (st : LocalStore) (now : GoDate) (newID : String) (event : NotificationEvent)
    (p : PaymentResponse) (subResp : SubscriptionResponse)
    (hev : event.Event = "PAYMENT_CREATED")
    (hp : event.Payment = some p)
    (hsub : p.Subscription ≠ "")
    (hnew : Repo.FindPaymentByID st p.ExternalReference = none)
    (hget : gw.GetSubscriptionByID p.Subscription = .ok subResp)
    (href : subResp.ExternalID ≠ "") :
    (∀ localSub, Repo.FindSubscriptionByID st subResp.ExternalID = some localSub →
       Repo.FindPaymentByID st newID = none →
       (Service.HandleWebhookNotification gw st now newID event).store =
         { st with payments := st.payments ++
             [{ ID := newID, CustomerID := localSub.CustomerID,
                SubscriptionID := localSub.ID, BillingType := p.BillingType,
                Value := p.Value, DueDate := parseDate p.DueDate,
                Description := p.Description, InstallmentCount := 0,
                CallbackSuccessURL := "", CallbackAutoRedirect := false,
                Status := p.Status, InvoiceURL := p.InvoiceURL,
                TransactionReceiptURL := p.TransactionReceiptURL,
                CreatedAt := now, UpdatedAt := now }] }) ∧
    (Repo.FindSubscriptionByID st subResp.ExternalID = none →
       Service.HandleWebhookNotification gw st now newID event =
         ⟨.ok (), st, [.getSubscriptionByID p.Subscription]⟩) :=
  webhook_orphanBranch_shape gw st now newID event p subResp hev hp hsub hnew hget href

/-- Witness for C4: the spec's literal scenario 4 on `stBase`. -/
theorem webhook_orphanCharge_materialization_witness :
    (Service.HandleWebhookNotification gwOk stBase d2025 "new-1" evOrphanCreate).store =
      { stBase with payments := stBase.payments ++
          [{ ID := "new-1", CustomerID := subA.CustomerID,
             SubscriptionID := subA.ID, BillingType := pOrphan.BillingType,
             Value := pOrphan.Value, DueDate := parseDate pOrphan.DueDate,
             Description := pOrphan.Description, InstallmentCount := 0,
             CallbackSuccessURL := "", CallbackAutoRedirect := false,
             Status := pOrphan.Status, InvoiceURL := pOrphan.InvoiceURL,
             TransactionReceiptURL := pOrphan.TransactionReceiptURL,
             CreatedAt := d2025, UpdatedAt := d2025 }] } :=
  (webhook_orphanCharge_materialization gwOk stBase d2025 "new-1" evOrphanCreate
      pOrphan subResp9 rfl rfl (by decide) rfl rfl (by decide)).1 subA rfl rfl

/-- The status-update row function never changes a payment's ID. -/
theorem updatePaymentRow_ID (now : GoDate) (id s iu ru : String)
    (q : PaymentRecord) : (Repo.updatePaymentRow now id s iu ru q).ID = q.ID := by
  unfold Repo.updatePaymentRow
  split <;> rfl

/-- Looking a payment up by ID commutes with the status-update map. -/
theorem find_map_updateRow (l : List PaymentRecord) (now : GoDate)
    (id s iu ru key : String) :
    (l.map (Repo.updatePaymentRow now id s iu ru)).find? (fun q => q.ID == key) =
      (l.find? (fun q => q.ID == key)).map (Repo.updatePaymentRow now id s iu ru) := by
  rw [List.find?_map]
  have hpred : ((fun q : PaymentRecord => q.ID == key) ∘
      Repo.updatePaymentRow now id s iu ru) = fun q => q.ID == key := by
    funext q
    simp [Function.comp, updatePaymentRow_ID]
  rw [hpred]

/-- A found payment's ID is the looked-up key. -/
theorem FindPaymentByID_id_eq (st : LocalStore) (key : String)
    (c : PaymentRecord) (h : Repo.FindPaymentByID st key = some c) :
    c.ID = key := by
  unfold Repo.FindPaymentByID at h
  have hb := List.find?_some h
  simp only [beq_iff_eq] at hb
  exact hb

/-- UpdatePaymentStatus succeeds on an existing payment and maps the rows. -/
theorem UpdatePaymentStatus_ok (st : LocalStore) (now : GoDate)
    (id s iu ru : String) (q : PaymentRecord)
    (h : Repo.FindPaymentByID st id = some q) :
    Repo.UpdatePaymentStatus st now id s iu ru =
      .ok { st with payments := st.payments.map (Repo.updatePaymentRow now id s iu ru) } := by
  unfold Repo.UpdatePaymentStatus
  rw [h]

/-- No invoice found for a charge means the invoice count for it is zero. -/
theorem countInvoicesFor_eq_zero (st : LocalStore) (pid : String)
    (h : Repo.FindInvoiceByPaymentID st pid = none) :
    countInvoicesFor st pid = 0 := by
  unfold Repo.FindInvoiceByPaymentID at h
  rw [List.find?_eq_none] at h
  unfold countInvoicesFor
  rw [List.filter_eq_nil_iff.mpr h]
  rfl

/-- An invoice count of one means the lookup by charge ID finds something. -/
theorem findInvoice_isSome_of_count_one (st : LocalStore) (pid : String)
    (h : countInvoicesFor st pid = 1) :
    (Repo.FindInvoiceByPaymentID st pid).isSome := by
  unfold countInvoicesFor at h
  unfold Repo.FindInvoiceByPaymentID
  rw [List.find?_isSome]
  rcases hfl : st.invoices.filter (fun i => i.PaymentID == pid) with _ | ⟨a, tl⟩
  · rw [hfl] at h
    simp at h
  · have hmem : a ∈ st.invoices.filter (fun i => i.PaymentID == pid) := by
      rw [hfl]
      exact List.mem_cons_self a tl
    rw [List.mem_filter] at hmem
    exact ⟨a, hmem.1, hmem.2⟩

/-- On a match, the webhook's charge status branch reduces to updating the
charge row and running the Invoice Issuer on the updated store. -/
theorem webhook_statusBranch_reduces (gw : AsaasClient) (st : LocalStore)
    (now : GoDate) (newID : String) (event : NotificationEvent)
    (p : PaymentResponse) (c : PaymentRecord)
    (hev : event.Event ∈ Service.paymentStatusEvents)
    (hp : event.Payment = some p)
    (hfind : Repo.FindPaymentByID st p.ExternalReference = some c) :
    Service.HandleWebhookNotification gw st now newID event =
      Service.issueInvoiceForPayment gw
        { st with payments :=
            (st.payments.map
              (Repo.updatePaymentRow now c.ID p.Status p.InvoiceURL p.TransactionReceiptURL)) }
        now c p := by
  have d1 : event.Event ≠ "PAYMENT_CREATED" := fun hc =>
    absurd (hc ▸ hev) (by decide)
  have d2 : ¬(event.Event = "INVOICE_CREATED" ∨ event.Event = "SUBSCRIPTION_CREATED") := by
    rintro (hc | hc) <;> exact absurd (hc ▸ hev) (by decide)
  have hfind2 : Repo.FindPaymentByID st c.ID = some c := by
    rw [FindPaymentByID_id_eq st p.ExternalReference c hfind]
    exact hfind
  unfold Service.HandleWebhookNotification
  rw [if_neg d1, if_neg d2, if_pos hev]
  simp only [hp, hfind,
    UpdatePaymentStatus_ok st now c.ID p.Status p.InvoiceURL p.TransactionReceiptURL c hfind2]

/-- Redelivering a charge status notice when an invoice already exists for
the matched charge succeeds, only rewrites the charge row, and issues no
gateway call. -/
theorem webhook_statusDelivery_steady (gw : AsaasClient) (st : LocalStore)
    (now : GoDate) (newID : String) (event : NotificationEvent)
    (p : PaymentResponse) (c : PaymentRecord)
    (hev : event.Event ∈ Service.paymentStatusEvents)
    (hp : event.Payment = some p)
    (hfind : Repo.FindPaymentByID st p.ExternalReference = some c)
    (hinv : (Repo.FindInvoiceByPaymentID st c.ID).isSome) :
    Service.HandleWebhookNotification gw st now newID event =
      ⟨.ok (),
       { st with payments :=
           (st.payments.map
             (Repo.updatePaymentRow now c.ID p.Status p.InvoiceURL p.TransactionReceiptURL)) },
       []⟩ := by
  rw [webhook_statusBranch_reduces gw st now newID event p c hev hp hfind]
  obtain ⟨inv, hinv2⟩ := Option.isSome_iff_exists.mp hinv
  have hinvUpd : Repo.FindInvoiceByPaymentID
      { st with payments :=
          (st.payments.map
            (Repo.updatePaymentRow now c.ID p.Status p.InvoiceURL p.TransactionReceiptURL)) }
      c.ID = some inv := hinv2
  unfold Service.issueInvoiceForPayment
  rw [hinvUpd]

/-- A successful SaveInvoice appends exactly the given record. -/
theorem SaveInvoice_ok_shape (st : LocalStore) (i : InvoiceRecord)
    (st1 : LocalStore) (h : Repo.SaveInvoice st i = .ok st1) :
    st1 = { st with invoices := st.invoices ++ [i] } := by
  unfold Repo.SaveInvoice at h
  split at h
  · simp at h
  · injection h with h1
    exact h1.symm

/-- A successful CreateInvoice appends exactly one invoice, linked to the
resolved parent charge, and leaves the other tables alone. -/
theorem CreateInvoice_ok_store (gw : AsaasClient) (st : LocalStore)
    (now : GoDate) (req : InvoiceRequest) (payment : PaymentRecord)
    (hfind : Repo.FindPaymentByID st req.Payment = some payment)
    (hok : ∃ v, (Service.CreateInvoice gw st now req).res = .ok v) :
    ∃ inv : InvoiceRecord, inv.PaymentID = payment.ID ∧
      (Service.CreateInvoice gw st now req).store =
        { st with invoices := st.invoices ++ [inv] } := by
  obtain ⟨v, hv⟩ := hok
  unfold Service.CreateInvoice at hv ⊢
  simp only [hfind] at hv ⊢
  split at hv
  · simp at hv
  · rename_i rp heq
    split at hv
    · simp at hv
    · rename_i remote heq2
      split at hv
      · simp at hv
      · rename_i st1 heq3
        refine ⟨_, ?_, SaveInvoice_ok_shape _ _ _ heq3⟩
        rfl

/-- A successful first delivery of a charge status notice (no invoice yet
for the matched charge) updates the charge row and appends exactly one
invoice linked to the charge. -/
theorem webhook_statusDelivery_first (gw : AsaasClient) (st : LocalStore)
    (now : GoDate) (newID : String) (event : NotificationEvent)
    (p : PaymentResponse) (c : PaymentRecord)
    (hev : event.Event ∈ Service.paymentStatusEvents)
    (hp : event.Payment = some p)
    (hfind : Repo.FindPaymentByID st p.ExternalReference = some c)
    (hnoinv : Repo.FindInvoiceByPaymentID st c.ID = none)
    (hok : (Service.HandleWebhookNotification gw st now newID event).res = .ok ()) :
    ∃ inv : InvoiceRecord, inv.PaymentID = c.ID ∧
      (Service.HandleWebhookNotification gw st now newID event).store =
        { st with
            payments :=
              (st.payments.map
                (Repo.updatePaymentRow now c.ID p.Status p.InvoiceURL p.TransactionReceiptURL)),
            invoices := st.invoices ++ [inv] } := by
  rw [webhook_statusBranch_reduces gw st now newID event p c hev hp hfind] at hok ⊢
  have hnoinvUpd : Repo.FindInvoiceByPaymentID
      { st with payments :=
          (st.payments.map
            (Repo.updatePaymentRow now c.ID p.Status p.InvoiceURL p.TransactionReceiptURL)) }
      c.ID = none := hnoinv
  unfold Service.issueInvoiceForPayment at hok ⊢
  simp only [hnoinvUpd] at hok ⊢
  have hfind2 : st.payments.find? (fun q => q.ID == c.ID) = some c := by
    have h3 := hfind
    unfold Repo.FindPaymentByID at h3
    rw [← FindPaymentByID_id_eq st p.ExternalReference c hfind] at h3
    exact h3
  have hfindUpd : Repo.FindPaymentByID
      { st with payments :=
          (st.payments.map
            (Repo.updatePaymentRow now c.ID p.Status p.InvoiceURL p.TransactionReceiptURL)) }
      (Service.defaultInvoiceRequest c now).Payment =
      some (Repo.updatePaymentRow now c.ID p.Status p.InvoiceURL p.TransactionReceiptURL c) := by
    have h4 : (st.payments.map
        (Repo.updatePaymentRow now c.ID p.Status p.InvoiceURL p.TransactionReceiptURL)).find?
        (fun q => q.ID == c.ID) =
        some (Repo.updatePaymentRow now c.ID p.Status p.InvoiceURL p.TransactionReceiptURL c) := by
      rw [find_map_updateRow, hfind2]
      rfl
    exact h4
  cases hres : (Service.CreateInvoice gw
      { st with payments :=
          (st.payments.map
            (Repo.updatePaymentRow now c.ID p.Status p.InvoiceURL p.TransactionReceiptURL)) }
      now (Service.defaultInvoiceRequest c now)).res with
  | error e =>
    rw [hres] at hok
    simp at hok
  | ok v =>
    obtain ⟨inv, hpid, hstore⟩ := CreateInvoice_ok_store gw
      { st with payments :=
          (st.payments.map
            (Repo.updatePaymentRow now c.ID p.Status p.InvoiceURL p.TransactionReceiptURL)) }
      now (Service.defaultInvoiceRequest c now)
      (Repo.updatePaymentRow now c.ID p.Status p.InvoiceURL p.TransactionReceiptURL c)
      hfindUpd ⟨v, hres⟩
    refine ⟨inv, ?_, ?_⟩
    · rw [hpid, updatePaymentRow_ID]
    · exact hstore

/-- Any number of redeliveries of the same charge status notice, starting
from a store that already holds exactly one invoice for the matched charge,
all succeed and keep that count at exactly one. -/
theorem deliverRepeat_steady (gw : AsaasClient) (now : GoDate) (newID : String)
    (event : NotificationEvent) (p : PaymentResponse) (cid : String)
    (hev : event.Event ∈ Service.paymentStatusEvents)
    (hp : event.Payment = some p) :
    ∀ (n : Nat) (st : LocalStore),
      (∃ c, Repo.FindPaymentByID st p.ExternalReference = some c ∧ c.ID = cid) →
      countInvoicesFor st cid = 1 →
      ∃ stN, Service.deliverRepeat gw now newID event n st = .ok stN ∧
        countInvoicesFor stN cid = 1 := by
  intro n
  induction n with
  | zero =>
    intro st hc hcount
    exact ⟨st, rfl, hcount⟩
  | succ n ih =>
    intro st hc hcount
    obtain ⟨c, hfind, hcid⟩ := hc
    have hinv : (Repo.FindInvoiceByPaymentID st c.ID).isSome := by
      rw [hcid]
      exact findInvoice_isSome_of_count_one st cid hcount
    have hstep := webhook_statusDelivery_steady gw st now newID event p c hev hp hfind hinv
    unfold Service.deliverRepeat
    simp only [hstep]
    have hfindUpd : Repo.FindPaymentByID
        { st with payments :=
            (st.payments.map
              (Repo.updatePaymentRow now c.ID p.Status p.InvoiceURL p.TransactionReceiptURL)) }
        p.ExternalReference =
        some (Repo.updatePaymentRow now c.ID p.Status p.InvoiceURL p.TransactionReceiptURL c) := by
      have h5 : (st.payments.map
          (Repo.updatePaymentRow now c.ID p.Status p.InvoiceURL p.TransactionReceiptURL)).find?
          (fun q => q.ID == p.ExternalReference) =
          some (Repo.updatePaymentRow now c.ID p.Status p.InvoiceURL p.TransactionReceiptURL c) := by
        rw [find_map_updateRow]
        have h6 := hfind
        unfold Repo.FindPaymentByID at h6
        rw [h6]
        rfl
      exact h5
    have hcountUpd : countInvoicesFor
        { st with payments :=
            (st.payments.map
              (Repo.updatePaymentRow now c.ID p.Status p.InvoiceURL p.TransactionReceiptURL)) }
        cid = 1 := hcount
    exact ih
      { st with payments :=
          (st.payments.map
            (Repo.updatePaymentRow now c.ID p.Status p.InvoiceURL p.TransactionReceiptURL)) }
      ⟨Repo.updatePaymentRow now c.ID p.Status p.InvoiceURL p.TransactionReceiptURL c,
       hfindUpd, by rw [updatePaymentRow_ID]; exact hcid⟩
      hcountUpd

/-- C1: delivering the identical charge status notice N ≥ 1 times yields
exactly one invoice linked to the matched charge: after a successful first
delivery the store holds exactly one invoice for the charge, and every
redelivery succeeds (finding the existing invoice via the lookup keyed by
the charge's local ID) while keeping the count at exactly one. -/
theorem webhook_invoice_idempotent (gw : AsaasClient) (st : LocalStore)
    (now : GoDate) (newID : String) (event : NotificationEvent)
    (p : PaymentResponse) (charge : PaymentRecord) (N : Nat)
    (hev : event.Event ∈ Service.paymentStatusEvents)
    (hp : event.Payment = some p)
    (hfind : Repo.FindPaymentByID st p.ExternalReference = some charge)
    (hnoinv : Repo.FindInvoiceByPaymentID st charge.ID = none)
    (hok : (Service.HandleWebhookNotification gw st now newID event).res = .ok ()) :
    countInvoicesFor
      (Service.HandleWebhookNotification gw st now newID event).store charge.ID = 1 ∧
    ∃ stN, Service.deliverRepeat gw now newID event N
        (Service.HandleWebhookNotification gw st now newID event).store = .ok stN ∧
      countInvoicesFor stN charge.ID = 1 := by
  obtain ⟨inv, hpid, hstore⟩ :=
    webhook_statusDelivery_first gw st now newID event p charge hev hp hfind hnoinv hok
  have hcount0 : countInvoicesFor st charge.ID = 0 :=
    countInvoicesFor_eq_zero st charge.ID hnoinv
  have hnil : st.invoices.filter (fun i => i.PaymentID == charge.ID) = [] := by
    have h7 := hcount0
    unfold countInvoicesFor at h7
    exact List.length_eq_zero.mp h7
  have hcount1 : countInvoicesFor
      (Service.HandleWebhookNotification gw st now newID event).store charge.ID = 1 := by
    rw [hstore]
    unfold countInvoicesFor
    simp [List.filter_append, hnil, hpid]
  have hfindS1 : Repo.FindPaymentByID
      (Service.HandleWebhookNotification gw st now newID event).store p.ExternalReference =
      some (Repo.updatePaymentRow now charge.ID p.Status p.InvoiceURL p.TransactionReceiptURL charge) := by
    rw [hstore]
    have h5 : (st.payments.map
        (Repo.updatePaymentRow now charge.ID p.Status p.InvoiceURL p.TransactionReceiptURL)).find?
        (fun q => q.ID == p.ExternalReference) =
        some (Repo.updatePaymentRow now charge.ID p.Status p.InvoiceURL p.TransactionReceiptURL charge) := by
      rw [find_map_updateRow]
      have h6 := hfind
      unfold Repo.FindPaymentByID at h6
      rw [h6]
      rfl
    exact h5
  refine ⟨hcount1, ?_⟩
  exact deliverRepeat_steady gw now newID event p charge.ID hev hp N
    (Service.HandleWebhookNotification gw st now newID event).store
    ⟨Repo.updatePaymentRow now charge.ID p.Status p.InvoiceURL p.TransactionReceiptURL charge,
     hfindS1, by rw [updatePaymentRow_ID]⟩
    hcount1

/-- Witness for C1: the spec's literal scenarios 2 and 3 — one successful
PAYMENT_RECEIVED delivery for `payA` followed by three identical
redeliveries, ending with exactly one invoice for the charge. -/
theorem webhook_invoice_idempotent_witness :
    countInvoicesFor
      (Service.HandleWebhookNotification gwOk stBase d2025 "new-1" evReceived).store
      payA.ID = 1 ∧
    ∃ stN, Service.deliverRepeat gwOk d2025 "new-1" evReceived 3
        (Service.HandleWebhookNotification gwOk stBase d2025 "new-1" evReceived).store =
          .ok stN ∧
      countInvoicesFor stN payA.ID = 1 :=
  webhook_invoice_idempotent gwOk stBase d2025 "new-1" evReceived prReceived payA 3
    (by decide) rfl rfl rfl rfl

/-- Appending a matching record to a list with no prior match makes `find?`
return exactly it. -/
theorem find_append_singleton {α : Type} (l : List α) (pred : α → Bool) (a : α)
    (hnone : ∀ x ∈ l, ¬ pred x) (ha : pred a = true) :
    (l ++ [a]).find? pred = some a := by
  rw [List.find?_append, List.find?_eq_none.mpr hnone]
  simp [List.find?_cons_of_pos, ha]

/-- C9: for each entity type, a successful creation through the Orchestrator
against the modelled gateway, followed by the gateway lookup keyed by the
entity's local ID (with no intervening gateway mutation), returns a record
whose remote ID is exactly the ID the gateway returned at creation time. -/
theorem orchestrator_correlation_roundTrip :
    (∀ (g : GatewayState) (rid gs : String) (st : LocalStore) (now : GoDate)
       (newID : String) (req : CustomerRequest),
       (∀ c ∈ g.customers, c.ExternalID ≠ newID) →
       Repo.FindCustomerByID st newID = none →
       ∃ rec remote,
         (Service.RegisterCustomer (GatewayModel.oracle g rid gs) st now newID req).res =
           .ok (rec, remote) ∧ rec.ID = newID ∧ remote.ID = rid ∧
         GatewayModel.GetCustomer
           (GatewayModel.CreateCustomer g rid { req with ExternalID := newID }).1
           rec.ID = .ok remote) ∧
    (∀ (g : GatewayState) (rid gs : String) (st : LocalStore) (now : GoDate)
       (newID : String) (req : PaymentRequest) (customer : CustomerRecord)
       (rc : CustomerResponse),
       Repo.FindCustomerByID st req.Customer = some customer →
       GatewayModel.GetCustomer g customer.ID = .ok rc →
       Repo.FindPaymentByID st newID = none →
       (∀ c ∈ g.payments, c.ExternalReference ≠ newID) →
       ∃ rec remote,
         (Service.CreatePayment (GatewayModel.oracle g rid gs) st now newID req).res =
           .ok (rec, remote) ∧ rec.ID = newID ∧ remote.ID = rid ∧
         GatewayModel.GetPayment
           (GatewayModel.CreatePayment g rid gs
             { req with ExternalID := newID, Customer := rc.ID }).1
           rec.ID = .ok remote) ∧
    (∀ (g : GatewayState) (rid gs : String) (st : LocalStore) (now : GoDate)
       (newID : String) (req : SubscriptionRequest) (customer : CustomerRecord)
       (rc : CustomerResponse),
       Repo.FindCustomerByID st req.Customer = some customer →
       GatewayModel.GetCustomer g customer.ID = .ok rc →
       Repo.FindSubscriptionByID st newID = none →
       (∀ c ∈ g.subscriptions, c.ExternalID ≠ newID) →
       ∃ rec remote,
         (Service.CreateSubscription (GatewayModel.oracle g rid gs) st now newID req).res =
           .ok (rec, remote) ∧ rec.ID = newID ∧ remote.ID = rid ∧
         GatewayModel.GetSubscription
           (GatewayModel.CreateSubscription g rid gs
             { req with ExternalID := newID, Customer := rc.ID }).1
           rec.ID = .ok remote) ∧
    (∀ (g : GatewayState) (rid gs : String) (st : LocalStore) (now : GoDate)
       (req : InvoiceRequest) (payment : PaymentRecord) (rp : PaymentResponse),
       Repo.FindPaymentByID st req.Payment = some payment →
       GatewayModel.GetPayment g payment.ID = .ok rp →
       Repo.FindInvoiceByID st
         (if req.ExternalID ≠ "" then req.ExternalID else payment.ID) = none →
       (∀ c ∈ g.invoices,
         c.ExternalID ≠ (if req.ExternalID ≠ "" then req.ExternalID else payment.ID)) →
       ∃ rec remote,
         (Service.CreateInvoice (GatewayModel.oracle g rid gs) st now req).res =
           .ok (rec, remote) ∧
         rec.ID = (if req.ExternalID ≠ "" then req.ExternalID else payment.ID) ∧
         remote.ID = rid ∧
         GatewayModel.GetInvoice
           (GatewayModel.CreateInvoice g rid gs
             { req with
                 ExternalID := if req.ExternalID ≠ "" then req.ExternalID else payment.ID,
                 Payment := rp.ID }).1
           rec.ID = .ok remote) := by
  refine ⟨?_, ?_, ?_, ?_⟩
  · intro g rid gs st now newID req hfreshG hfreshL
    unfold Service.RegisterCustomer
    simp only [GatewayModel.oracle]
    unfold Repo.SaveCustomer
    simp only [hfreshL]
    refine ⟨_, _, rfl, rfl, rfl, ?_⟩
    unfold GatewayModel.GetCustomer GatewayModel.CreateCustomer
    simp only []
    rw [find_append_singleton _ _ _
      (fun x hx => by simpa using hfreshG x hx) (by simp)]
  · intro g rid gs st now newID req customer rc hfindc hgetc hfreshL hfreshG
    unfold Service.CreatePayment
    simp only [GatewayModel.oracle, hfindc, hgetc]
    unfold Repo.SavePayment
    simp only [hfreshL]
    refine ⟨_, _, rfl, rfl, rfl, ?_⟩
    unfold GatewayModel.GetPayment GatewayModel.CreatePayment
    simp only []
    rw [find_append_singleton _ _ _
      (fun x hx => by simpa using hfreshG x hx) (by simp)]
  · intro g rid gs st now newID req customer rc hfindc hgetc hfreshL hfreshG
    unfold Service.CreateSubscription
    simp only [GatewayModel.oracle, hfindc, hgetc]
    unfold Repo.SaveSubscription
    simp only [hfreshL]
    refine ⟨_, _, rfl, rfl, rfl, ?_⟩
    unfold GatewayModel.GetSubscription GatewayModel.CreateSubscription
    simp only []
    rw [find_append_singleton _ _ _
      (fun x hx => by simpa using hfreshG x hx) (by simp)]
  · intro g rid gs st now req payment rp hfindp hgetp hfreshL hfreshG
    unfold Service.CreateInvoice
    simp only [GatewayModel.oracle, hfindp, hgetp]
    unfold Repo.SaveInvoice
    simp only [hfreshL]
    refine ⟨_, _, rfl, rfl, rfl, ?_⟩
    unfold GatewayModel.GetInvoice GatewayModel.CreateInvoice
    simp only []
    rw [find_append_singleton _ _ _
      (fun x hx => by simpa using hfreshG x hx) (by simp)]

/-- Witness for C9: the spec's literal scenario 1 — creating a charge for
`cust-1` against a gateway that assigns ID "gw-pay-1" and status "PENDING",
then looking it up by the new local ID. -/
theorem orchestrator_correlation_roundTrip_witness :
    ∃ rec remote,
      (Service.CreatePayment (GatewayModel.oracle gWithCustomer "gw-pay-1" "PENDING")
          stBase d2025 "new-1" payReqA).res = .ok (rec, remote) ∧
      rec.ID = "new-1" ∧ remote.ID = "gw-pay-1" ∧
      GatewayModel.GetPayment
        (GatewayModel.CreatePayment gWithCustomer "gw-pay-1" "PENDING"
          { payReqA with ExternalID := "new-1", Customer := rcA.ID }).1
        rec.ID = .ok remote :=
  (orchestrator_correlation_roundTrip).2.1 gWithCustomer "gw-pay-1" "PENDING"
    stBase d2025 "new-1" payReqA custA rcA rfl rfl rfl (by decide)

/-- C10: date parsing at the public interface is total and silently lenient —
any string Go's `time.Parse("2006-01-02", ·)` rejects (the empty string
included) becomes the zero time, and each creation flow (charge,
subscription, invoice) and the orphan-charge materializer proceeds and
persists that parsed date for an arbitrary, unvalidated date string: no flow
fails because of a malformed dueDate, nextDueDate, endDate or
effectiveDate. -/
theorem dateParsing_total_lenient :
    (∀ s : String, parseGoDate s = none → parseDate s = GoDate.goZero) ∧
    (∀ (gw : AsaasClient) (st : LocalStore) (now : GoDate) (newID : String)
       (req : PaymentRequest) (customer : CustomerRecord) (rc : CustomerResponse)
       (remote : PaymentResponse),
       Repo.FindCustomerByID st req.Customer = some customer →
       gw.GetCustomer customer.ID = .ok rc →
       gw.CreatePayment { req with ExternalID := newID, Customer := rc.ID } = .ok remote →
       Repo.FindPaymentByID st newID = none →
       ∃ rec, (Service.CreatePayment gw st now newID req).res = .ok (rec, remote) ∧
         rec.DueDate = parseDate req.DueDate ∧
         (Service.CreatePayment gw st now newID req).store =
           { st with payments := st.payments ++ [rec] }) ∧
    (∀ (gw : AsaasClient) (st : LocalStore) (now : GoDate) (newID : String)
       (req : SubscriptionRequest) (customer : CustomerRecord) (rc : CustomerResponse)
       (remote : SubscriptionResponse),
       Repo.FindCustomerByID st req.Customer = some customer →
       gw.GetCustomer customer.ID = .ok rc →
       gw.CreateSubscription { req with ExternalID := newID, Customer := rc.ID } = .ok remote →
       Repo.FindSubscriptionByID st newID = none →
       ∃ rec, (Service.CreateSubscription gw st now newID req).res = .ok (rec, remote) ∧
         rec.NextDueDate = parseDate req.NextDueDate ∧
         rec.EndDate = parseDate req.EndDate ∧
         (Service.CreateSubscription gw st now newID req).store =
           { st with subscriptions := st.subscriptions ++ [rec] }) ∧
    (∀ (gw : AsaasClient) (st : LocalStore) (now : GoDate)
       (req : InvoiceRequest) (payment : PaymentRecord) (rp : PaymentResponse)
       (remote : InvoiceResponse),
       Repo.FindPaymentByID st req.Payment = some payment →
       gw.GetPayment payment.ID = .ok rp →
       gw.CreateInvoice { req with
           ExternalID := if req.ExternalID ≠ "" then req.ExternalID else payment.ID,
           Payment := rp.ID } = .ok remote →
       Repo.FindInvoiceByID st
         (if req.ExternalID ≠ "" then req.ExternalID else payment.ID) = none →
       ∃ rec, (Service.CreateInvoice gw st now req).res = .ok (rec, remote) ∧
         rec.EffectiveDate = parseDate req.EffectiveDate ∧
         (Service.CreateInvoice gw st now req).store =
           { st with invoices := st.invoices ++ [rec] }) ∧
    (∀ (gw : AsaasClient) (st : LocalStore) (now : GoDate) (newID : String)
       (event : NotificationEvent) (p : PaymentResponse)
       (subResp : SubscriptionResponse) (localSub : SubscriptionRecord),
       event.Event = "PAYMENT_CREATED" →
       event.Payment = some p →
       p.Subscription ≠ "" →
       Repo.FindPaymentByID st p.ExternalReference = none →
       gw.GetSubscriptionByID p.Subscription = .ok subResp →
       subResp.ExternalID ≠ "" →
       Repo.FindSubscriptionByID st subResp.ExternalID = some localSub →
       Repo.FindPaymentByID st newID = none →
       ∃ rec : PaymentRecord,
         (Service.HandleWebhookNotification gw st now newID event).store =
           { st with payments := st.payments ++ [rec] } ∧
         rec.DueDate = parseDate p.DueDate) := by
  refine ⟨?_, ?_, ?_, ?_, ?_⟩
  · intro s h
    unfold parseDate
    rw [h]
    rfl
  · intro gw st now newID req customer rc remote hfind hget hcr hfresh
    unfold Service.CreatePayment
    simp only [hfind, hget, hcr]
    unfold Repo.SavePayment
    simp only [hfresh]
    exact ⟨_, rfl, rfl, rfl⟩
  · intro gw st now newID req customer rc remote hfind hget hcr hfresh
    unfold Service.CreateSubscription
    simp only [hfind, hget, hcr]
    unfold Repo.SaveSubscription
    simp only [hfresh]
    exact ⟨_, rfl, rfl, rfl, rfl⟩
  · intro gw st now req payment rp remote hfind hget hcr hfresh
    unfold Service.CreateInvoice
    simp only [hfind, hget, hcr]
    unfold Repo.SaveInvoice
    simp only [hfresh]
    exact ⟨_, rfl, rfl, rfl⟩
  · intro gw st now newID event p subResp localSub hev hp hsub hnew hget href hfindSub hfresh
    exact ⟨_, (webhook_orphanBranch_shape gw st now newID event p subResp
      hev hp hsub hnew hget href).1 localSub hfindSub hfresh, rfl⟩

/-- Witness for C10: the malformed date "31/12/2025" parses to the zero
time, and the charge-creation flow still succeeds, persisting that zero
due date. -/
theorem dateParsing_total_lenient_witness :
    parseDate "31/12/2025" = GoDate.goZero ∧
    ∃ rec, (Service.CreatePayment gwOk stBase d2025 "new-1" payReqBad).res =
        .ok (rec, remoteBadPay) ∧
      rec.DueDate = parseDate payReqBad.DueDate ∧
      (Service.CreatePayment gwOk stBase d2025 "new-1" payReqBad).store =
        { stBase with payments := stBase.payments ++ [rec] } :=
  ⟨dateParsing_total_lenient.1 "31/12/2025" rfl,
   dateParsing_total_lenient.2.1 gwOk stBase d2025 "new-1" payReqBad custA rcA
     remoteBadPay rfl rfl rfl rfl⟩
